import Mathlib

/-!
Verification of the GameYob DS sound engine
(src/platform/ds/arm9/source/dssoundengine.cpp).

The file shallowly embeds the engine: the per-channel local state of the
SoundEngine class, the shared-state block visible to both cores, and the
operations handleSoundRegister, updateSound, refresh, synchronizeSound,
FIFO_SEND, muteSND and unmuteSND.  Machine integers are modelled as Nat
(bitmasks, register bytes) and Int (the C int fields), with C division
written Int.tdiv (truncation toward zero) and the arithmetic right shift
as the Int shift.  The two unbounded C while loops (sweep, envelope) are
modelled with an explicit iteration bound (fuel): each modelled step
checks the loop guard first, so for every fuel the result is a prefix of
the C execution, and all theorems below hold for every fuel.

External collaborators (the Gameboy object owning io registers, the
clockSpeed global, the hyperSound and soundDisabled configuration flags,
the arm7 side of the handshake) are modelled as an explicit context.
Calls out of the engine (fifoSendValue32, printLog of the drop
diagnostic, gameboy->clearSoundChannel) are recorded in an event log.
Message words are modelled abstractly by command kind and channel; the
numeric encodings of the GBSND constants live in a header outside this
translation unit.
-/

namespace GameYob

/-- Commands carried by messages between the two cores, by kind and
channel index (4 is the all-channels sentinel used by update). -/
inductive GBCmd where
  | start (i : Nat)
  | update (i : Nat)
  | volume (i : Nat)
  | masterVolume
  | muteCmd
  | unmuteCmd
  deriving Repr, DecidableEq

/-- Observable effects of the engine: a message slot handed to the sync
protocol, a word pushed through the fifo, a dropped send (with its
diagnostic log), a completed cycle-accurate handshake, and a
clearSoundChannel signal to the Gameboy collaborator (carrying the
CHAN_x bitmask constant the source passes). -/
inductive Ev where
  | sent (m : GBCmd)
  | fifoPush (m : GBCmd)
  | dropped
  | handshake (m : GBCmd)
  | clearChannel (mask : Nat)
  deriving Repr, DecidableEq

/-- Outcome of the spin wait in synchronizeSound, decided by the arm7
environment: either arm7 acknowledges (sets the shared cycles field back
to -1), or the scaleTransferReady flag appears and the wait is aborted. -/
inductive WaitOutcome where
  | acked
  | aborted
  deriving Repr, DecidableEq

/-- Four-element array, one slot per sound channel. -/
structure Quad (α : Type) where
  q0 : α
  q1 : α
  q2 : α
  q3 : α
  deriving Repr, DecidableEq

def Quad.get (q : Quad α) (i : Nat) : α :=
  match i with
  | 0 => q.q0
  | 1 => q.q1
  | 2 => q.q2
  | _ => q.q3

def Quad.set (q : Quad α) (i : Nat) (v : α) : Quad α :=
  match i with
  | 0 => { q with q0 := v }
  | 1 => { q with q1 := v }
  | 2 => { q with q2 := v }
  | _ => { q with q3 := v }

def Quad.const (v : α) : Quad α := ⟨v, v, v, v⟩

/-- The shared-state block (SharedData, declared in a header outside this
translation unit; fields modelled are exactly the ones this source file
touches).  The sampleData pointer field is pointer plumbing and is not
modelled. -/
structure Shared where
  chanOn : Nat
  chanDuty : Quad Nat
  chanRealVol : Quad Int
  chanRealFreq : Quad Int
  chanPan : Quad Nat
  chanOutput : Nat
  volControl : Nat
  chanEnabled : Quad Bool
  lfsr7Bit : Nat
  message : GBCmd
  hyperSound : Bool
  scaleTransferReady : Bool
  frameFlip_Gameboy : Bool
  frameFlip_DS : Bool
  dsCycles : Int
  cycles : Int
  fifosSent : Nat
  fifosReceived : Nat
  deriving Repr, DecidableEq

/-- The local (emulation-core private) fields of the SoundEngine class.
chanUseLen is an int holding 0 or 1 in the source, modelled as Bool.
chan4FreqRatioCode stores the raw 3-bit code written to register 0x22;
the source stores the decoded double (code, or 0.5 for code 0) and uses
it once, in refreshSoundFreq, where the decode is applied below. -/
structure Engine where
  chan1SweepTime : Nat
  chan1SweepCounter : Int
  chan1SweepDir : Int
  chan1SweepAmount : Nat
  chanLen : Quad Int
  chanLenCounter : Quad Int
  chanUseLen : Quad Bool
  chanFreq : Quad Int
  chanVol : Quad Int
  chanEnvDir : Quad Int
  chanEnvCounter : Quad Int
  chanEnvSweep : Quad Int
  chan4FreqRatioCode : Nat
  muted : Bool
  cyclesToSoundEvent : Int
  deriving Repr, DecidableEq

/-- Environment of the engine: the globals clockSpeed and hyperSound,
the Gameboy collaborator io-register file and timing queries, and the
arm7 behaviour during a cycle-accurate wait.  The global soundDisabled
flag is passed separately to the two functions that read it. -/
structure Ctx where
  clockSpeed : Int
  hyperSound : Bool
  doubleSpeed : Bool
  cyclesSinceVBlank : Int
  io : Nat → Nat
  wait : WaitOutcome

/-- Full machine state: engine locals, the real sharedData block, the
dummySharedData block that mute redirects writes to, the engine-owned
sample buffer, the fifo channel contents in send order, and the event
log. -/
structure St where
  eng : Engine
  shared : Shared
  dummy : Shared
  sampleData : Nat → Int
  queue : List GBCmd
  events : List Ev

/-- The sharedPtr read: dummySharedData while muted, sharedData
otherwise. -/
def rdSh (s : St) : Shared :=
  if s.eng.muted then s.dummy else s.shared

/-- A write through sharedPtr. -/
def wrSh (s : St) (f : Shared → Shared) : St :=
  if s.eng.muted then { s with dummy := f s.dummy } else { s with shared := f s.shared }

def logEv (e : Ev) (s : St) : St :=
  { s with events := s.events ++ [e] }

/-- Channel bitmask constants CHAN_1 .. CHAN_4 (engine header). -/
def CHAN_1 : Nat := 1
def CHAN_2 : Nat := 2
def CHAN_3 : Nat := 4
def CHAN_4 : Nat := 8

/-- C complement-and-mask on a 32-bit int: x &= ~m. -/
def andNotMask (x m : Nat) : Nat := x &&& (0xFFFFFFFF ^^^ m)

def MAX_FIFOS_WAITING : Nat := 60

/-- FIFO_SEND: admission-controlled send through the fifo.  Always uses
the real sharedData counters (the source reads sharedData, not
sharedPtr).  The counters are u32 with fifosSent ≥ fifosReceived in
every reachable state, so the u32 difference is the Nat difference. -/
def FIFO_SEND (m : GBCmd) (s : St) : St :=
  if s.shared.fifosSent - s.shared.fifosReceived < MAX_FIFOS_WAITING then
    { s with shared := { s.shared with fifosSent := s.shared.fifosSent + 1 },
             queue := s.queue ++ [m],
             events := s.events ++ [Ev.fifoPush m] }
  else
    { s with events := s.events ++ [Ev.dropped] }

/-- Cycle count used by synchronizeSound: cycles since vblank, halved
(C int division) under double speed. -/
def syncCycles (ctx : Ctx) : Int :=
  if ctx.doubleSpeed then Int.tdiv ctx.cyclesSinceVBlank 2 else ctx.cyclesSinceVBlank

/-- SoundEngine::synchronizeSound.  In the cycle-accurate branch the
source writes the target cycle count and spins until arm7 acknowledges
by writing -1, unless the scaleTransferReady flag appears, in which case
it writes -1 itself and falls through to the fifo send; the final value
of the shared cycles field is -1 on both exits, and the arm7 behaviour
is supplied by the context.  Entering synchronizeSound with the current
message slot is recorded as an Ev.sent event. -/
def synchronizeSound (ctx : Ctx) (s : St) : St :=
  if s.eng.muted then s
  else
    let cycles := syncCycles ctx
    let sh := rdSh s
    let s := logEv (Ev.sent sh.message) s
    if sh.hyperSound ∧ ¬ sh.scaleTransferReady ∧
        ¬ (sh.frameFlip_Gameboy ≠ sh.frameFlip_DS ∨ sh.dsCycles ≥ cycles) then
      match ctx.wait with
      | WaitOutcome.acked =>
          logEv (Ev.handshake sh.message) (wrSh s (fun sh => { sh with cycles := -1 }))
      | WaitOutcome.aborted =>
          FIFO_SEND sh.message (wrSh s (fun sh => { sh with cycles := -1 }))
    else
      FIFO_SEND sh.message s

def sendStartMessage (ctx : Ctx) (i : Nat) (s : St) : St :=
  synchronizeSound ctx (wrSh s (fun sh => { sh with message := GBCmd.start i }))

/-- SoundEngine::sendUpdateMessage; the argument -1 is the all-channels
sentinel, rewritten to 4. -/
def sendUpdateMessage (ctx : Ctx) (i : Int) (s : St) : St :=
  let j : Nat := if i = -1 then 4 else i.toNat
  synchronizeSound ctx (wrSh s (fun sh => { sh with message := GBCmd.update j }))

def sendGlobalVolumeMessage (ctx : Ctx) (s : St) : St :=
  synchronizeSound ctx (wrSh s (fun sh => { sh with message := GBCmd.masterVolume }))

/-- SoundEngine::setSoundEventCycles. -/
def setSoundEventCycles (c : Int) (s : St) : St :=
  if s.eng.cyclesToSoundEvent > c then
    { s with eng := { s.eng with cyclesToSoundEvent := c } }
  else s

/-- SoundEngine::refreshSoundPan. -/
def refreshSoundPan (i : Nat) (s : St) : St :=
  let out := (rdSh s).chanOutput
  let pan : Nat :=
    if out &&& (1 <<< i) ≠ 0 ∧ out &&& (1 <<< (i + 4)) ≠ 0 then 64
    else if out &&& (1 <<< i) ≠ 0 then 127
    else if out &&& (1 <<< (i + 4)) ≠ 0 then 0
    else 128
  wrSh s (fun sh => { sh with chanPan := sh.chanPan.set i pan })

/-- SoundEngine::refreshSoundVolume.  The local variable volume of the
source is the value s.eng.chanVol.get i, inlined here. -/
def refreshSoundVolume (ctx : Ctx) (i : Nat) (send : Bool) (s : St) : St :=
  if ¬ ((rdSh s).chanOn &&& (1 <<< i) ≠ 0) ∨ ¬ ((rdSh s).chanEnabled.get i) then s
  else if send ∧ (rdSh s).chanRealVol.get i ≠ s.eng.chanVol.get i then
    synchronizeSound ctx
      (wrSh s (fun sh =>
        { sh with chanRealVol := sh.chanRealVol.set i (s.eng.chanVol.get i),
                  message := GBCmd.volume i }))
  else
    wrSh s (fun sh => { sh with chanRealVol := sh.chanRealVol.set i (s.eng.chanVol.get i) })

/-- SoundEngine::refreshSoundFreq.  For the noise channel the source
computes (int)(524288 / chan4FreqRatio) with a double division whose
truncation to int equals the exact floor below for every ratio code
(code 0 decodes to the exact ratio one half). -/
def refreshSoundFreq (i : Nat) (s : St) : St :=
  let freq : Int :=
    if i ≤ 1 then
      (Int.tdiv 131072 (2048 - s.eng.chanFreq.get i)) * 8
    else if i = 2 then
      (Int.tdiv 65536 (2048 - s.eng.chanFreq.get i)) * 32
    else
      (if s.eng.chan4FreqRatioCode = 0 then (1048576 : Int)
       else Int.tdiv 524288 (s.eng.chan4FreqRatioCode : Int))
        >>> (s.eng.chanFreq.get i + 1).toNat
  wrSh s (fun sh => { sh with chanRealFreq := sh.chanRealFreq.set i freq })

/-- SoundEngine::refreshSoundDuty has an empty body. -/
def refreshSoundDuty (_i : Nat) (s : St) : St := s

/-- The pcmVals table: analog[i] * 0x70 truncated to int, as computed
once by SoundEngine::init from the fixed analog table. -/
def pcmVals : List Int :=
  [-112, -97, -82, -67, -52, -37, -22, -7, 7, 22, 37, 52, 67, 82, 97, 112]

/-- SoundEngine::updateSoundSample: rewrite the two sample-buffer bytes
decoded from wave-ram byte b, read back through the io file. -/
def updateSoundSample (ctx : Ctx) (b : Nat) (s : St) : St :=
  let sample := ctx.io (0x30 + b)
  let f := fun n =>
    if n = b * 2 then pcmVals.getD (sample >>> 4) 0
    else if n = b * 2 + 1 then pcmVals.getD (sample &&& 0xF) 0
    else s.sampleData n
  { s with sampleData := f }

/-- Length-counter reload (maxLen - len) * clockSpeed / 256 with C
evaluation order. -/
def lenReload (ctx : Ctx) (maxLen len : Int) : Int :=
  Int.tdiv ((maxLen - len) * ctx.clockSpeed) 256

/-- Sweep-counter reload clockSpeed / (128 / sweepTime); the inner
division is C int division on the 0..7 sweep time. -/
def sweepReload (ctx : Ctx) (t : Nat) : Int :=
  Int.tdiv ctx.clockSpeed ((128 / t : Nat) : Int)

/-- SoundEngine::handleSoundRegister, the register dispatcher.  ioReg is
the io address (u8) and val the written byte.  Each arm is a literal
transcription of the corresponding switch case. -/
def handleSoundRegister (ctx : Ctx) (ioReg : Nat) (val : Nat) (s : St) : St :=
  match ioReg with
  -- CHANNEL 1: sweep
  | 0x10 =>
    let s := { s with eng := { s.eng with chan1SweepTime := (val >>> 4) &&& 0x7 } }
    let s :=
      if s.eng.chan1SweepTime ≠ 0 then
        let s := { s with eng :=
          { s.eng with chan1SweepCounter := sweepReload ctx s.eng.chan1SweepTime } }
        setSoundEventCycles s.eng.chan1SweepCounter s
      else s
    { s with eng := { s.eng with
        chan1SweepDir := if val &&& 0x8 ≠ 0 then -1 else 1,
        chan1SweepAmount := val &&& 0x7 } }
  -- CHANNEL 1: length / duty
  | 0x11 =>
    let s := { s with eng := { s.eng with chanLen := s.eng.chanLen.set 0 ((val &&& 0x3F : Nat) : Int) } }
    let s := { s with eng := { s.eng with
        chanLenCounter := s.eng.chanLenCounter.set 0 (lenReload ctx 64 (s.eng.chanLen.get 0)) } }
    let s := if s.eng.chanUseLen.get 0 then setSoundEventCycles (s.eng.chanLenCounter.get 0) s else s
    let s := wrSh s (fun sh => { sh with chanDuty := sh.chanDuty.set 0 (val >>> 6) })
    let s := refreshSoundDuty 0 s
    sendUpdateMessage ctx 0 s
  -- CHANNEL 1: envelope / volume
  | 0x12 =>
    let s := { s with eng := { s.eng with chanVol := s.eng.chanVol.set 0 (val >>> 4 : Nat) } }
    let s := { s with eng := { s.eng with
        chanEnvDir := s.eng.chanEnvDir.set 0 (if val &&& 0x8 ≠ 0 then 1 else -1) } }
    let s := { s with eng := { s.eng with chanEnvSweep := s.eng.chanEnvSweep.set 0 ((val &&& 0x7 : Nat) : Int) } }
    refreshSoundVolume ctx 0 true s
  -- CHANNEL 1: frequency (low)
  | 0x13 =>
    let s := { s with eng := { s.eng with
        chanFreq := s.eng.chanFreq.set 0 (Int.lor (Int.land (s.eng.chanFreq.get 0) 0x700) val) } }
    let s := refreshSoundFreq 0 s
    sendUpdateMessage ctx 0 s
  -- CHANNEL 1: start / frequency (high)
  | 0x14 =>
    let s := { s with eng := { s.eng with
        chanFreq := s.eng.chanFreq.set 0
          (Int.lor (Int.land (s.eng.chanFreq.get 0) 0xFF) (((val &&& 0x7) <<< 8 : Nat) : Int)) } }
    let s := refreshSoundFreq 0 s
    let s := { s with eng := { s.eng with chanUseLen := s.eng.chanUseLen.set 0 (val &&& 0x40 ≠ 0) } }
    if val &&& 0x80 ≠ 0 then
      let s := { s with eng := { s.eng with
          chanLenCounter := s.eng.chanLenCounter.set 0 (lenReload ctx 64 (s.eng.chanLen.get 0)) } }
      let s := if s.eng.chanUseLen.get 0 then setSoundEventCycles (s.eng.chanLenCounter.get 0) s else s
      let s := wrSh s (fun sh => { sh with chanOn := sh.chanOn ||| CHAN_1 })
      let s := { s with eng := { s.eng with chanVol := s.eng.chanVol.set 0 (ctx.io 0x12 >>> 4 : Nat) } }
      let s :=
        if s.eng.chan1SweepTime ≠ 0 then
          let s := { s with eng :=
            { s.eng with chan1SweepCounter := sweepReload ctx s.eng.chan1SweepTime } }
          setSoundEventCycles s.eng.chan1SweepCounter s
        else s
      let s := refreshSoundVolume ctx 0 false s
      sendStartMessage ctx 0 s
    else
      sendUpdateMessage ctx 0 s
  -- CHANNEL 2: length / duty
  | 0x16 =>
    let s := { s with eng := { s.eng with chanLen := s.eng.chanLen.set 1 ((val &&& 0x3F : Nat) : Int) } }
    let s := { s with eng := { s.eng with
        chanLenCounter := s.eng.chanLenCounter.set 1 (lenReload ctx 64 (s.eng.chanLen.get 1)) } }
    let s := if s.eng.chanUseLen.get 1 then setSoundEventCycles (s.eng.chanLenCounter.get 1) s else s
    let s := wrSh s (fun sh => { sh with chanDuty := sh.chanDuty.set 1 (val >>> 6) })
    sendUpdateMessage ctx 1 s
  -- CHANNEL 2: volume / envelope
  | 0x17 =>
    let s := { s with eng := { s.eng with chanVol := s.eng.chanVol.set 1 (val >>> 4 : Nat) } }
    let s := { s with eng := { s.eng with
        chanEnvDir := s.eng.chanEnvDir.set 1 (if val &&& 0x8 ≠ 0 then 1 else -1) } }
    let s := { s with eng := { s.eng with chanEnvSweep := s.eng.chanEnvSweep.set 1 ((val &&& 0x7 : Nat) : Int) } }
    refreshSoundVolume ctx 1 true s
  -- CHANNEL 2: frequency (low)
  | 0x18 =>
    let s := { s with eng := { s.eng with
        chanFreq := s.eng.chanFreq.set 1 (Int.lor (Int.land (s.eng.chanFreq.get 1) 0x700) val) } }
    let s := refreshSoundFreq 1 s
    sendUpdateMessage ctx 1 s
  -- CHANNEL 2: start / frequency (high)
  | 0x19 =>
    let s := { s with eng := { s.eng with
        chanFreq := s.eng.chanFreq.set 1
          (Int.lor (Int.land (s.eng.chanFreq.get 1) 0xFF) (((val &&& 0x7) <<< 8 : Nat) : Int)) } }
    let s := refreshSoundFreq 1 s
    let s := { s with eng := { s.eng with chanUseLen := s.eng.chanUseLen.set 1 (val &&& 0x40 ≠ 0) } }
    if val &&& 0x80 ≠ 0 then
      let s := { s with eng := { s.eng with
          chanLenCounter := s.eng.chanLenCounter.set 1 (lenReload ctx 64 (s.eng.chanLen.get 1)) } }
      let s := if s.eng.chanUseLen.get 1 then setSoundEventCycles (s.eng.chanLenCounter.get 1) s else s
      let s := wrSh s (fun sh => { sh with chanOn := sh.chanOn ||| CHAN_2 })
      let s := { s with eng := { s.eng with chanVol := s.eng.chanVol.set 1 (ctx.io 0x17 >>> 4 : Nat) } }
      let s := refreshSoundVolume ctx 1 false s
      sendStartMessage ctx 1 s
    else
      sendUpdateMessage ctx 1 s
  -- CHANNEL 3: on/off
  | 0x1A =>
    if val &&& 0x80 = 0 then
      let s := wrSh s (fun sh => { sh with chanOn := andNotMask sh.chanOn CHAN_3 })
      sendUpdateMessage ctx 2 s
    else s
  -- CHANNEL 3: length
  | 0x1B =>
    let s := { s with eng := { s.eng with chanLen := s.eng.chanLen.set 2 val } }
    let s := { s with eng := { s.eng with
        chanLenCounter := s.eng.chanLenCounter.set 2 (lenReload ctx 256 (s.eng.chanLen.get 2)) } }
    if s.eng.chanUseLen.get 2 then setSoundEventCycles (s.eng.chanLenCounter.get 2) s else s
  -- CHANNEL 3: volume
  | 0x1C =>
    let raw := (val >>> 5) &&& 3
    let v : Int := match raw with
      | 0 => 0
      | 1 => 15
      | 2 => 15 >>> 1
      | _ => 15 >>> 2
    let s := { s with eng := { s.eng with chanVol := s.eng.chanVol.set 2 v } }
    refreshSoundVolume ctx 2 true s
  -- CHANNEL 3: frequency (low)
  | 0x1D =>
    let s := { s with eng := { s.eng with
        chanFreq := s.eng.chanFreq.set 2 (Int.lor (Int.land (s.eng.chanFreq.get 2) 0xFF00) val) } }
    let s := refreshSoundFreq 2 s
    sendUpdateMessage ctx 2 s
  -- CHANNEL 3: start / frequency (high)
  | 0x1E =>
    let s := { s with eng := { s.eng with
        chanFreq := s.eng.chanFreq.set 2
          (Int.lor (Int.land (s.eng.chanFreq.get 2) 0xFF) (((val &&& 7) <<< 8 : Nat) : Int)) } }
    let s := refreshSoundFreq 2 s
    let s := { s with eng := { s.eng with chanUseLen := s.eng.chanUseLen.set 2 (val &&& 0x40 ≠ 0) } }
    if val &&& 0x80 ≠ 0 ∧ ctx.io 0x1A &&& 0x80 ≠ 0 then
      let s := wrSh s (fun sh => { sh with chanOn := sh.chanOn ||| CHAN_3 })
      let s := { s with eng := { s.eng with
          chanLenCounter := s.eng.chanLenCounter.set 2 (lenReload ctx 256 (s.eng.chanLen.get 2)) } }
      let s := if s.eng.chanUseLen.get 2 then setSoundEventCycles (s.eng.chanLenCounter.get 2) s else s
      let s := refreshSoundVolume ctx 2 false s
      sendStartMessage ctx 2 s
    else
      sendUpdateMessage ctx 2 s
  -- CHANNEL 4: length
  | 0x20 =>
    let s := { s with eng := { s.eng with chanLen := s.eng.chanLen.set 3 ((val &&& 0x3F : Nat) : Int) } }
    let s := { s with eng := { s.eng with
        chanLenCounter := s.eng.chanLenCounter.set 3 (lenReload ctx 64 (s.eng.chanLen.get 3)) } }
    if s.eng.chanUseLen.get 3 then setSoundEventCycles (s.eng.chanLenCounter.get 3) s else s
  -- CHANNEL 4: volume / envelope
  | 0x21 =>
    let s := { s with eng := { s.eng with chanVol := s.eng.chanVol.set 3 (val >>> 4 : Nat) } }
    let s := { s with eng := { s.eng with
        chanEnvDir := s.eng.chanEnvDir.set 3 (if val &&& 0x8 ≠ 0 then 1 else -1) } }
    let s := { s with eng := { s.eng with chanEnvSweep := s.eng.chanEnvSweep.set 3 ((val &&& 0x7 : Nat) : Int) } }
    refreshSoundVolume ctx 3 true s
  -- CHANNEL 4: frequency
  | 0x22 =>
    let s := { s with eng := { s.eng with chanFreq := s.eng.chanFreq.set 3 (val >>> 4 : Nat) } }
    let s := { s with eng := { s.eng with chan4FreqRatioCode := val &&& 0x7 } }
    let s := wrSh s (fun sh => { sh with lfsr7Bit := val &&& 0x8 })
    let s := refreshSoundFreq 3 s
    sendUpdateMessage ctx 3 s
  -- CHANNEL 4: start
  | 0x23 =>
    let s := { s with eng := { s.eng with chanUseLen := s.eng.chanUseLen.set 3 (val &&& 0x40 ≠ 0) } }
    if val &&& 0x80 ≠ 0 then
      let s := { s with eng := { s.eng with
          chanLenCounter := s.eng.chanLenCounter.set 3 (lenReload ctx 64 (s.eng.chanLen.get 3)) } }
      let s := if s.eng.chanUseLen.get 3 then setSoundEventCycles (s.eng.chanLenCounter.get 3) s else s
      let s := wrSh s (fun sh => { sh with chanOn := sh.chanOn ||| CHAN_4 })
      let s := { s with eng := { s.eng with chanVol := s.eng.chanVol.set 3 (ctx.io 0x21 >>> 4 : Nat) } }
      let s := refreshSoundVolume ctx 3 false s
      sendStartMessage ctx 3 s
    else s
  -- GENERAL: master volume
  | 0x24 =>
    if (rdSh s).volControl &&& 0x7 ≠ val &&& 0x7 then
      let s := wrSh s (fun sh => { sh with volControl := val })
      sendGlobalVolumeMessage ctx s
    else
      wrSh s (fun sh => { sh with volControl := val })
  -- GENERAL: output routing
  | 0x25 =>
    let s := wrSh s (fun sh => { sh with chanOutput := val })
    let s := refreshSoundPan 0 s
    let s := refreshSoundPan 1 s
    let s := refreshSoundPan 2 s
    let s := refreshSoundPan 3 s
    let s := sendUpdateMessage ctx (-1) s
    sendGlobalVolumeMessage ctx s
  -- GENERAL: master enable
  | 0x26 =>
    if val &&& 0x80 = 0 then
      let s := wrSh s (fun sh => { sh with chanOn := 0 })
      sendUpdateMessage ctx (-1) s
    else s
  -- wave ram
  | 0x30 | 0x31 | 0x32 | 0x33 | 0x34 | 0x35 | 0x36 | 0x37
  | 0x38 | 0x39 | 0x3A | 0x3B | 0x3C | 0x3D | 0x3E | 0x3F =>
    updateSoundSample ctx (ioReg - 0x30) s
  | _ => s

/-- Body of one firing of the channel-1 sweep while loop of
SoundEngine::updateSound: reload the counter accumulating the
overshoot, shift-and-add the frequency, and either disable the channel
(on 11-bit overflow, also signaling the Gameboy collaborator) or push
the recomputed real frequency to shared state. -/
def sweepStep (ctx : Ctx) (s : St) : St :=
  let c := s.eng.chan1SweepCounter + (sweepReload ctx s.eng.chan1SweepTime + s.eng.chan1SweepCounter)
  let s := { s with eng := { s.eng with chan1SweepCounter := c } }
  let f := s.eng.chanFreq.get 0 + (s.eng.chanFreq.get 0 >>> s.eng.chan1SweepAmount) * s.eng.chan1SweepDir
  let s := { s with eng := { s.eng with chanFreq := s.eng.chanFreq.set 0 f } }
  if s.eng.chanFreq.get 0 > 0x7FF then
    let s := wrSh s (fun sh => { sh with chanOn := andNotMask sh.chanOn CHAN_1 })
    logEv (Ev.clearChannel CHAN_1) s
  else
    refreshSoundFreq 0 s

/-- Channel-1 sweep while loop of SoundEngine::updateSound, modelled
with an explicit iteration bound.  The guard is re-checked before every
step, so any bound gives a prefix of the C loop.  The Boolean is the
running changed flag. -/
def sweepLoop (ctx : Ctx) : Nat → St × Bool → St × Bool
  | 0, sc => sc
  | fuel + 1, (s, ch) =>
    if s.eng.chan1SweepCounter ≤ 0 then
      sweepLoop ctx fuel (sweepStep ctx s, true)
    else (s, ch)

/-- Body of the envelope while loop of SoundEngine::updateSound for
channel i, with an explicit iteration bound. -/
def envLoop (ctx : Ctx) (i : Nat) : Nat → St × Bool → St × Bool
  | 0, sc => sc
  | fuel + 1, (s, ch) =>
    if s.eng.chanEnvCounter.get i ≤ 0 then
      let c := s.eng.chanEnvCounter.get i + Int.tdiv (s.eng.chanEnvSweep.get i * ctx.clockSpeed) 64
      let s := { s with eng := { s.eng with chanEnvCounter := s.eng.chanEnvCounter.set i c } }
      let v := s.eng.chanVol.get i + s.eng.chanEnvDir.get i
      let s := { s with eng := { s.eng with chanVol := s.eng.chanVol.set i v } }
      let s := if s.eng.chanVol.get i < 0 then
          { s with eng := { s.eng with chanVol := s.eng.chanVol.set i 0 } } else s
      let s := if s.eng.chanVol.get i > 0xF then
          { s with eng := { s.eng with chanVol := s.eng.chanVol.set i 0xF } } else s
      let s := refreshSoundVolume ctx i true s
      envLoop ctx i fuel (s, true)
    else (s, ch)

/-- Envelope pass of SoundEngine::updateSound for one channel (the body
of its first for loop, skipping the wave channel). -/
def envChan (ctx : Ctx) (fuel : Nat) (cycles : Int) (i : Nat) (sc : St × Bool) : St × Bool :=
  let (s, ch) := sc
  if i ≠ 2 ∧ (rdSh s).chanOn &&& (1 <<< i) ≠ 0 then
    if s.eng.chanEnvSweep.get i ≠ 0 then
      let c := s.eng.chanEnvCounter.get i - cycles
      let s := { s with eng := { s.eng with chanEnvCounter := s.eng.chanEnvCounter.set i c } }
      let (s, ch) := envLoop ctx i fuel (s, ch)
      let s := if s.eng.chanVol.get i ≠ 0 ∧ s.eng.chanVol.get i ≠ 0xF then
          setSoundEventCycles (s.eng.chanEnvCounter.get i) s else s
      (s, ch)
    else (s, ch)
  else (s, ch)

/-- Length pass of SoundEngine::updateSound for one channel (the body of
its second for loop); on expiry it clears the on-bit and signals
clearSoundChannel with the channel mask the source passes (1 <<< i). -/
def lenChan (cycles : Int) (i : Nat) (sc : St × Bool) : St × Bool :=
  let (s, ch) := sc
  if (rdSh s).chanOn &&& (1 <<< i) ≠ 0 ∧ s.eng.chanUseLen.get i then
    let c := s.eng.chanLenCounter.get i - cycles
    let s := { s with eng := { s.eng with chanLenCounter := s.eng.chanLenCounter.set i c } }
    if s.eng.chanLenCounter.get i ≤ 0 then
      let s := wrSh s (fun sh => { sh with chanOn := andNotMask sh.chanOn (1 <<< i) })
      let s := logEv (Ev.clearChannel (1 <<< i)) s
      (s, true)
    else
      (setSoundEventCycles (s.eng.chanLenCounter.get i) s, ch)
  else (s, ch)

/-- Sweep pass of SoundEngine::updateSound: while channel 1 is on and
swept, decrement the sweep counter by the elapsed cycles, run the sweep
loop, and when the channel is still on report the next sweep event
time. -/
def sweepPass (ctx : Ctx) (fuel : Nat) (cycles : Int) (s : St) : St × Bool :=
  if (rdSh s).chanOn &&& CHAN_1 ≠ 0 ∧ s.eng.chan1SweepTime ≠ 0 then
    let s1 := { s with eng := { s.eng with chan1SweepCounter :=
        s.eng.chan1SweepCounter - cycles } }
    let sc := sweepLoop ctx fuel (s1, false)
    let s2 := if (rdSh sc.1).chanOn &&& CHAN_1 ≠ 0 then
        setSoundEventCycles sc.1.eng.chan1SweepCounter sc.1 else sc.1
    (s2, sc.2)
  else (s, false)

/-- Final send of SoundEngine::updateSound: when something changed, an
all-channels update goes through the sync protocol under hyperSound, or
(unless muted) straight through the fifo otherwise. -/
def updateSend (ctx : Ctx) (sc : St × Bool) : St :=
  if sc.2 then
    if ctx.hyperSound then
      sendUpdateMessage ctx (-1) sc.1
    else if sc.1.eng.muted then sc.1
    else FIFO_SEND (GBCmd.update 4) sc.1
  else sc.1

/-- SoundEngine::updateSound: the frame-slice advance.  Processes sweep,
then envelopes, then lengths, then sends one update if anything
changed.  Returns immediately when the global soundDisabled flag is
set. -/
def updateSound (soundDisabled : Bool) (ctx : Ctx) (fuel : Nat) (cycles : Int) (s : St) : St :=
  if soundDisabled then s
  else
    updateSend ctx
      (lenChan cycles 3 (lenChan cycles 2 (lenChan cycles 1 (lenChan cycles 0
        (envChan ctx fuel cycles 3 (envChan ctx fuel cycles 2 (envChan ctx fuel cycles 1
          (envChan ctx fuel cycles 0 (sweepPass ctx fuel cycles s)))))))))

/-- SoundEngine::mute: redirect sharedPtr to dummySharedData. -/
def mute (s : St) : St := { s with eng := { s.eng with muted := true } }

/-- SoundEngine::unmute: reattach sharedPtr to sharedData. -/
def unmute (s : St) : St := { s with eng := { s.eng with muted := false } }

/-- The list of io addresses replayed by the bulk pass of refresh. -/
def refreshRange : List Nat := List.range' 0x10 0x30

/-- Bulk pass of SoundEngine::refresh: re-apply registers 0x10..0x3F,
masking off the trigger bit (u8 complement: val & 0x7F) for the four
trigger registers so channels are not restarted. -/
def refreshBulk (ctx : Ctx) (s : St) : St :=
  refreshRange.foldl (fun s i =>
    if i = 0x14 ∨ i = 0x19 ∨ i = 0x1E ∨ i = 0x23 then
      handleSoundRegister ctx i (ctx.io i &&& 0x7F) s
    else
      handleSoundRegister ctx i (ctx.io i) s) s

/-- Retrigger pass of SoundEngine::refresh: re-issue a trigger write for
each channel whose status bit is set in io register 0x26. -/
def refreshRetrigger (ctx : Ctx) (s : St) : St :=
  let s := if ctx.io 0x26 &&& 1 ≠ 0 then
      handleSoundRegister ctx 0x14 (ctx.io 0x14 ||| 0x80) s else s
  let s := if ctx.io 0x26 &&& 2 ≠ 0 then
      handleSoundRegister ctx 0x19 (ctx.io 0x19 ||| 0x80) s else s
  let s := if ctx.io 0x26 &&& 4 ≠ 0 then
      handleSoundRegister ctx 0x1E (ctx.io 0x1E ||| 0x80) s else s
  if ctx.io 0x26 &&& 8 ≠ 0 then
      handleSoundRegister ctx 0x23 (ctx.io 0x23 ||| 0x80) s else s

/-- SoundEngine::refresh.  soundEnable is a hardware call on the other
core and the sharedPtr sampleData pointer assignment is pointer
plumbing; neither is modelled. -/
def refresh (soundDisabled : Bool) (ctx : Ctx) (s : St) : St :=
  let s := unmute s
  if soundDisabled then s
  else
    let s := wrSh s (fun sh => { sh with chanOn := 0 })
    let s := handleSoundRegister ctx 0x26 (ctx.io 0x26) s
    let s := refreshBulk ctx s
    refreshRetrigger ctx s

/-- Global function muteSND: sends the mute command directly, without
the admission control of FIFO_SEND. -/
def muteSND (s : St) : St :=
  { s with shared := { s.shared with fifosSent := s.shared.fifosSent + 1 },
           queue := s.queue ++ [GBCmd.muteCmd],
           events := s.events ++ [Ev.fifoPush GBCmd.muteCmd] }

/-- Global function unmuteSND: sends the unmute command directly,
without the admission control of FIFO_SEND. -/
def unmuteSND (s : St) : St :=
  { s with shared := { s.shared with fifosSent := s.shared.fifosSent + 1 },
           queue := s.queue ++ [GBCmd.unmuteCmd],
           events := s.events ++ [Ev.fifoPush GBCmd.unmuteCmd] }

/-- A concrete shared block used as a base point for witnesses. -/
def sh0 : Shared :=
  { chanOn := 0, chanDuty := Quad.const 0, chanRealVol := Quad.const 0,
    chanRealFreq := Quad.const 0, chanPan := Quad.const 0, chanOutput := 0,
    volControl := 0, chanEnabled := Quad.const true, lfsr7Bit := 0,
    message := GBCmd.update 4, hyperSound := false, scaleTransferReady := false,
    frameFlip_Gameboy := false, frameFlip_DS := false, dsCycles := 0,
    cycles := -1, fifosSent := 0, fifosReceived := 0 }

/-- A concrete engine state used as a base point for witnesses. -/
def eng0 : Engine :=
  { chan1SweepTime := 0, chan1SweepCounter := 0, chan1SweepDir := 0,
    chan1SweepAmount := 0, chanLen := Quad.const 0, chanLenCounter := Quad.const 0,
    chanUseLen := Quad.const false, chanFreq := Quad.const 0,
    chanVol := Quad.const 0, chanEnvDir := Quad.const 0,
    chanEnvCounter := Quad.const 0, chanEnvSweep := Quad.const 0,
    chan4FreqRatioCode := 0, muted := false, cyclesToSoundEvent := 0 }

/-- A concrete full state used as a base point for witnesses. -/
def st0 : St :=
  { eng := eng0, shared := sh0, dummy := sh0, sampleData := fun _ => 0,
    queue := [], events := [] }

/-- A concrete context used as a base point for witnesses. -/
def ctx0 : Ctx :=
  { clockSpeed := 4194304, hyperSound := false,
    doubleSpeed := false, cyclesSinceVBlank := 0, io := fun _ => 0,
    wait := WaitOutcome.acked }

/-! Bookkeeping lemmas about bits and the state helpers. -/

theorem and_one_shift_ne_iff (x i : Nat) : x &&& (1 <<< i) ≠ 0 ↔ x.testBit i := by
  simp [Nat.shiftLeft_eq, Nat.and_two_pow]

theorem testBit_one_shift_self (i : Nat) : (1 <<< i).testBit i := by
  simp [Nat.testBit_shiftLeft]

theorem testBit_andNotMask (x m i : Nat) (h : (andNotMask x m).testBit i) : x.testBit i := by
  simp only [andNotMask, Nat.testBit_and, Bool.and_eq_true] at h
  exact h.1

theorem andNotMask_zero (m : Nat) : andNotMask 0 m = 0 := by
  simp [andNotMask]

theorem testBit_andNotMask_self (x i : Nat) (hi : i < 32) :
    (andNotMask x (1 <<< i)).testBit i = false := by
  have h1 : (0xFFFFFFFF : Nat).testBit i = true := by
    have h32 : (0xFFFFFFFF : Nat) = 2 ^ 32 - 1 := by norm_num
    rw [h32, Nat.testBit_two_pow_sub_one]
    simpa using hi
  have h2 : ((1 : Nat) <<< i).testBit i = true := testBit_one_shift_self i
  simp [andNotMask, Nat.testBit_and, Nat.testBit_xor, h1, h2]

@[simp] theorem wrSh_eng (s : St) (f : Shared → Shared) : (wrSh s f).eng = s.eng := by
  unfold wrSh; split <;> rfl

@[simp] theorem wrSh_events (s : St) (f : Shared → Shared) : (wrSh s f).events = s.events := by
  unfold wrSh; split <;> rfl

@[simp] theorem wrSh_queue (s : St) (f : Shared → Shared) : (wrSh s f).queue = s.queue := by
  unfold wrSh; split <;> rfl

@[simp] theorem wrSh_sampleData (s : St) (f : Shared → Shared) :
    (wrSh s f).sampleData = s.sampleData := by
  unfold wrSh; split <;> rfl

@[simp] theorem rdSh_wrSh (s : St) (f : Shared → Shared) : rdSh (wrSh s f) = f (rdSh s) := by
  unfold rdSh wrSh
  rcases h : s.eng.muted <;> simp [h]

@[simp] theorem logEv_eng (e : Ev) (s : St) : (logEv e s).eng = s.eng := rfl

@[simp] theorem logEv_shared (e : Ev) (s : St) : (logEv e s).shared = s.shared := rfl

@[simp] theorem logEv_dummy (e : Ev) (s : St) : (logEv e s).dummy = s.dummy := rfl

@[simp] theorem logEv_queue (e : Ev) (s : St) : (logEv e s).queue = s.queue := rfl

@[simp] theorem logEv_events (e : Ev) (s : St) : (logEv e s).events = s.events ++ [e] := rfl

@[simp] theorem rdSh_logEv (e : Ev) (s : St) : rdSh (logEv e s) = rdSh s := by
  unfold rdSh; rcases h : s.eng.muted <;> simp [h, logEv]

@[simp] theorem FIFO_SEND_eng (m : GBCmd) (s : St) : (FIFO_SEND m s).eng = s.eng := by
  unfold FIFO_SEND; split <;> rfl

@[simp] theorem FIFO_SEND_dummy (m : GBCmd) (s : St) : (FIFO_SEND m s).dummy = s.dummy := by
  unfold FIFO_SEND; split <;> rfl

@[simp] theorem FIFO_SEND_shared_chanOn (m : GBCmd) (s : St) :
    (FIFO_SEND m s).shared.chanOn = s.shared.chanOn := by
  unfold FIFO_SEND; split <;> rfl

@[simp] theorem FIFO_SEND_shared_message (m : GBCmd) (s : St) :
    (FIFO_SEND m s).shared.message = s.shared.message := by
  unfold FIFO_SEND; split <;> rfl

theorem FIFO_SEND_events (m : GBCmd) (s : St) :
    (FIFO_SEND m s).events = s.events ++ [Ev.fifoPush m] ∨
    (FIFO_SEND m s).events = s.events ++ [Ev.dropped] := by
  unfold FIFO_SEND; split
  · exact Or.inl rfl
  · exact Or.inr rfl

theorem rdSh_FIFO_SEND_chanOn (m : GBCmd) (s : St) :
    (rdSh (FIFO_SEND m s)).chanOn = (rdSh s).chanOn := by
  unfold rdSh
  rcases h : s.eng.muted <;> simp [h]

@[simp] theorem Quad.get_set_self (q : Quad α) (i : Nat) (v : α) : (q.set i v).get i = v := by
  rcases i with _ | _ | _ | i <;> rfl

theorem Quad.get_set_ne (q : Quad α) (i j : Nat) (v : α)
    (hi : i < 4) (hj : j < 4) (h : i ≠ j) : (q.set i v).get j = q.get j := by
  interval_cases i <;> interval_cases j <;> simp_all <;> rfl

theorem rdSh_chanOn_congr (s s' : St) (he : s'.eng.muted = s.eng.muted)
    (hs : s'.shared.chanOn = s.shared.chanOn) (hd : s'.dummy.chanOn = s.dummy.chanOn) :
    (rdSh s').chanOn = (rdSh s).chanOn := by
  unfold rdSh
  rw [he]
  split <;> simp [hs, hd]

theorem FIFO_SEND_events_exists (m : GBCmd) (s : St) :
    ∃ t, (FIFO_SEND m s).events = s.events ++ t ∧
      ∀ e ∈ t, e = Ev.fifoPush m ∨ e = Ev.dropped := by
  rcases FIFO_SEND_events m s with h | h
  · exact ⟨[Ev.fifoPush m], h, by simp⟩
  · exact ⟨[Ev.dropped], h, by simp⟩

theorem sync_eng (ctx : Ctx) (s : St) : (synchronizeSound ctx s).eng = s.eng := by
  unfold synchronizeSound
  cases hm : s.eng.muted with
  | true => simp [hm]
  | false =>
    simp only [hm, Bool.false_eq_true, if_false]
    split
    · cases hw : ctx.wait <;> simp
    · simp

theorem sync_shared_chanOn (ctx : Ctx) (s : St) :
    (synchronizeSound ctx s).shared.chanOn = s.shared.chanOn := by
  unfold synchronizeSound
  cases hm : s.eng.muted with
  | true => simp [hm]
  | false =>
    simp only [hm, Bool.false_eq_true, if_false]
    split
    · cases hw : ctx.wait <;> simp [wrSh, hm]
    · simp

theorem sync_dummy_chanOn (ctx : Ctx) (s : St) :
    (synchronizeSound ctx s).dummy.chanOn = s.dummy.chanOn := by
  unfold synchronizeSound
  cases hm : s.eng.muted with
  | true => simp [hm]
  | false =>
    simp only [hm, Bool.false_eq_true, if_false]
    split
    · cases hw : ctx.wait <;> simp [wrSh, hm]
    · simp

theorem sync_events_not_muted (ctx : Ctx) (s : St) (h : s.eng.muted = false) :
    ∃ t, (synchronizeSound ctx s).events = s.events ++ Ev.sent ((rdSh s).message) :: t ∧
      ∀ e ∈ t, e = Ev.fifoPush ((rdSh s).message) ∨ e = Ev.dropped ∨
        e = Ev.handshake ((rdSh s).message) := by
  unfold synchronizeSound
  simp only [h, Bool.false_eq_true, if_false]
  split
  · cases hw : ctx.wait
    · exact ⟨[Ev.handshake ((rdSh s).message)], by simp, by simp⟩
    · obtain ⟨t, ht, hP⟩ := FIFO_SEND_events_exists ((rdSh s).message)
        (wrSh (logEv (Ev.sent ((rdSh s).message)) s) (fun sh => { sh with cycles := -1 }))
      refine ⟨t, ?_, fun e he => (hP e he).imp_right Or.inl⟩
      rw [ht]
      simp
  · obtain ⟨t, ht, hP⟩ := FIFO_SEND_events_exists ((rdSh s).message)
      (logEv (Ev.sent ((rdSh s).message)) s)
    refine ⟨t, ?_, fun e he => (hP e he).imp_right Or.inl⟩
    rw [ht]
    simp

theorem sync_events_all (ctx : Ctx) (s : St) :
    ∃ t, (synchronizeSound ctx s).events = s.events ++ t ∧
      ∀ e ∈ t, e = Ev.sent ((rdSh s).message) ∨ e = Ev.fifoPush ((rdSh s).message) ∨
        e = Ev.dropped ∨ e = Ev.handshake ((rdSh s).message) := by
  cases hm : s.eng.muted with
  | true =>
    refine ⟨[], ?_, by simp⟩
    unfold synchronizeSound
    simp [hm]
  | false =>
    obtain ⟨t, ht, hP⟩ := sync_events_not_muted ctx s hm
    refine ⟨Ev.sent ((rdSh s).message) :: t, by simpa using ht, ?_⟩
    intro e he
    rcases List.mem_cons.mp he with he | he
    · exact Or.inl he
    · exact Or.inr (hP e he)

/-- Events produced by setting the message slot and synchronizing, for a
non-muted engine: the slot message is handed over, followed only by
delivery events for that same message. -/
theorem send_via_slot_events (ctx : Ctx) (m : GBCmd) (s : St) (h : s.eng.muted = false) :
    ∃ t, (synchronizeSound ctx (wrSh s (fun sh => { sh with message := m }))).events
        = s.events ++ Ev.sent m :: t ∧
      ∀ e ∈ t, e = Ev.fifoPush m ∨ e = Ev.dropped ∨ e = Ev.handshake m := by
  have h2 : (wrSh s (fun sh => { sh with message := m })).eng.muted = false := by
    rw [wrSh_eng]; exact h
  obtain ⟨t, ht, hP⟩ := sync_events_not_muted ctx (wrSh s (fun sh => { sh with message := m })) h2
  rw [rdSh_wrSh] at ht hP
  exact ⟨t, by rw [ht]; simp, hP⟩

theorem setSEC_eng_muted (c : Int) (s : St) :
    (setSoundEventCycles c s).eng.muted = s.eng.muted := by
  unfold setSoundEventCycles; split <;> rfl

theorem setSEC_eng_chanVol (c : Int) (s : St) :
    (setSoundEventCycles c s).eng.chanVol = s.eng.chanVol := by
  unfold setSoundEventCycles; split <;> rfl

theorem setSEC_eng_chanLenCounter (c : Int) (s : St) :
    (setSoundEventCycles c s).eng.chanLenCounter = s.eng.chanLenCounter := by
  unfold setSoundEventCycles; split <;> rfl

theorem setSEC_eng_chanEnvCounter (c : Int) (s : St) :
    (setSoundEventCycles c s).eng.chanEnvCounter = s.eng.chanEnvCounter := by
  unfold setSoundEventCycles; split <;> rfl

theorem setSEC_eng_chanFreq (c : Int) (s : St) :
    (setSoundEventCycles c s).eng.chanFreq = s.eng.chanFreq := by
  unfold setSoundEventCycles; split <;> rfl

theorem setSEC_eng_chanUseLen (c : Int) (s : St) :
    (setSoundEventCycles c s).eng.chanUseLen = s.eng.chanUseLen := by
  unfold setSoundEventCycles; split <;> rfl

theorem setSEC_eng_chan1SweepCounter (c : Int) (s : St) :
    (setSoundEventCycles c s).eng.chan1SweepCounter = s.eng.chan1SweepCounter := by
  unfold setSoundEventCycles; split <;> rfl

theorem setSEC_eng_chan1SweepTime (c : Int) (s : St) :
    (setSoundEventCycles c s).eng.chan1SweepTime = s.eng.chan1SweepTime := by
  unfold setSoundEventCycles; split <;> rfl

theorem setSEC_eng_chanLen (c : Int) (s : St) :
    (setSoundEventCycles c s).eng.chanLen = s.eng.chanLen := by
  unfold setSoundEventCycles; split <;> rfl

@[simp] theorem setSEC_shared (c : Int) (s : St) :
    (setSoundEventCycles c s).shared = s.shared := by
  unfold setSoundEventCycles; split <;> rfl

@[simp] theorem setSEC_dummy (c : Int) (s : St) :
    (setSoundEventCycles c s).dummy = s.dummy := by
  unfold setSoundEventCycles; split <;> rfl

@[simp] theorem setSEC_events (c : Int) (s : St) :
    (setSoundEventCycles c s).events = s.events := by
  unfold setSoundEventCycles; split <;> rfl

@[simp] theorem setSEC_queue (c : Int) (s : St) :
    (setSoundEventCycles c s).queue = s.queue := by
  unfold setSoundEventCycles; split <;> rfl

theorem rdSh_setSEC (c : Int) (s : St) : rdSh (setSoundEventCycles c s) = rdSh s := by
  unfold rdSh
  rw [setSEC_eng_muted, setSEC_shared, setSEC_dummy]

@[simp] theorem rsf_eng (i : Nat) (s : St) : (refreshSoundFreq i s).eng = s.eng := by
  unfold refreshSoundFreq; simp

@[simp] theorem rsf_events (i : Nat) (s : St) : (refreshSoundFreq i s).events = s.events := by
  unfold refreshSoundFreq; simp

@[simp] theorem rsf_queue (i : Nat) (s : St) : (refreshSoundFreq i s).queue = s.queue := by
  unfold refreshSoundFreq; simp

theorem rsf_chanOn (i : Nat) (s : St) : (rdSh (refreshSoundFreq i s)).chanOn = (rdSh s).chanOn := by
  unfold refreshSoundFreq
  rw [rdSh_wrSh]

theorem rsf_shared_chanOn (i : Nat) (s : St) :
    (refreshSoundFreq i s).shared.chanOn = s.shared.chanOn := by
  unfold refreshSoundFreq wrSh
  rcases h : s.eng.muted <;> simp [h]

theorem rsf_dummy_chanOn (i : Nat) (s : St) :
    (refreshSoundFreq i s).dummy.chanOn = s.dummy.chanOn := by
  unfold refreshSoundFreq wrSh
  rcases h : s.eng.muted <;> simp [h]

@[simp] theorem pan_eng (i : Nat) (s : St) : (refreshSoundPan i s).eng = s.eng := by
  unfold refreshSoundPan; simp

@[simp] theorem pan_events (i : Nat) (s : St) : (refreshSoundPan i s).events = s.events := by
  unfold refreshSoundPan; simp

theorem pan_shared_chanOn (i : Nat) (s : St) :
    (refreshSoundPan i s).shared.chanOn = s.shared.chanOn := by
  unfold refreshSoundPan wrSh
  rcases h : s.eng.muted <;> simp [h]

theorem pan_dummy_chanOn (i : Nat) (s : St) :
    (refreshSoundPan i s).dummy.chanOn = s.dummy.chanOn := by
  unfold refreshSoundPan wrSh
  rcases h : s.eng.muted <;> simp [h]

@[simp] theorem uss_eng (ctx : Ctx) (b : Nat) (s : St) :
    (updateSoundSample ctx b s).eng = s.eng := rfl

@[simp] theorem uss_shared (ctx : Ctx) (b : Nat) (s : St) :
    (updateSoundSample ctx b s).shared = s.shared := rfl

@[simp] theorem uss_dummy (ctx : Ctx) (b : Nat) (s : St) :
    (updateSoundSample ctx b s).dummy = s.dummy := rfl

@[simp] theorem uss_events (ctx : Ctx) (b : Nat) (s : St) :
    (updateSoundSample ctx b s).events = s.events := rfl

theorem rsv_eng (ctx : Ctx) (i : Nat) (b : Bool) (s : St) :
    (refreshSoundVolume ctx i b s).eng = s.eng := by
  unfold refreshSoundVolume
  split
  · rfl
  · split
    · rw [sync_eng, wrSh_eng]
    · rw [wrSh_eng]

theorem rsv_shared_chanOn (ctx : Ctx) (i : Nat) (b : Bool) (s : St) :
    (refreshSoundVolume ctx i b s).shared.chanOn = s.shared.chanOn := by
  unfold refreshSoundVolume
  split
  · rfl
  · split
    · rw [sync_shared_chanOn]
      unfold wrSh
      split <;> rfl
    · unfold wrSh
      split <;> rfl

theorem rsv_dummy_chanOn (ctx : Ctx) (i : Nat) (b : Bool) (s : St) :
    (refreshSoundVolume ctx i b s).dummy.chanOn = s.dummy.chanOn := by
  unfold refreshSoundVolume
  split
  · rfl
  · split
    · rw [sync_dummy_chanOn]
      unfold wrSh
      split <;> rfl
    · unfold wrSh
      split <;> rfl

theorem rsv_chanOn (ctx : Ctx) (i : Nat) (b : Bool) (s : St) :
    (rdSh (refreshSoundVolume ctx i b s)).chanOn = (rdSh s).chanOn := by
  apply rdSh_chanOn_congr
  · rw [rsv_eng]
  · rw [rsv_shared_chanOn]
  · rw [rsv_dummy_chanOn]

theorem rsv_events (ctx : Ctx) (i : Nat) (b : Bool) (s : St) :
    ∃ t, (refreshSoundVolume ctx i b s).events = s.events ++ t ∧
      ∀ e ∈ t, e = Ev.sent (GBCmd.volume i) ∨ e = Ev.fifoPush (GBCmd.volume i) ∨
        e = Ev.dropped ∨ e = Ev.handshake (GBCmd.volume i) := by
  unfold refreshSoundVolume
  split
  · exact ⟨[], by simp, by simp⟩
  · split
    · obtain ⟨t, ht, hP⟩ := sync_events_all ctx
        (wrSh s (fun sh =>
          { sh with chanRealVol := sh.chanRealVol.set i (s.eng.chanVol.get i),
                    message := GBCmd.volume i }))
      simp only [rdSh_wrSh] at hP
      exact ⟨t, by rw [ht]; simp, hP⟩
    · exact ⟨[], by simp, by simp⟩

theorem sendStart_eng (ctx : Ctx) (i : Nat) (s : St) :
    (sendStartMessage ctx i s).eng = s.eng := by
  unfold sendStartMessage
  rw [sync_eng, wrSh_eng]

theorem sendStart_shared_chanOn (ctx : Ctx) (i : Nat) (s : St) :
    (sendStartMessage ctx i s).shared.chanOn = s.shared.chanOn := by
  unfold sendStartMessage
  rw [sync_shared_chanOn]
  unfold wrSh
  split <;> rfl

theorem sendStart_dummy_chanOn (ctx : Ctx) (i : Nat) (s : St) :
    (sendStartMessage ctx i s).dummy.chanOn = s.dummy.chanOn := by
  unfold sendStartMessage
  rw [sync_dummy_chanOn]
  unfold wrSh
  split <;> rfl

theorem sendStart_chanOn (ctx : Ctx) (i : Nat) (s : St) :
    (rdSh (sendStartMessage ctx i s)).chanOn = (rdSh s).chanOn := by
  apply rdSh_chanOn_congr
  · rw [sendStart_eng]
  · rw [sendStart_shared_chanOn]
  · rw [sendStart_dummy_chanOn]

theorem sendStart_events (ctx : Ctx) (i : Nat) (s : St) (h : s.eng.muted = false) :
    ∃ t, (sendStartMessage ctx i s).events = s.events ++ Ev.sent (GBCmd.start i) :: t ∧
      ∀ e ∈ t, e = Ev.fifoPush (GBCmd.start i) ∨ e = Ev.dropped ∨
        e = Ev.handshake (GBCmd.start i) := by
  unfold sendStartMessage
  exact send_via_slot_events ctx (GBCmd.start i) s h

theorem sendUpdate_eng (ctx : Ctx) (i : Int) (s : St) :
    (sendUpdateMessage ctx i s).eng = s.eng := by
  unfold sendUpdateMessage
  rw [sync_eng, wrSh_eng]

theorem sendUpdate_shared_chanOn (ctx : Ctx) (i : Int) (s : St) :
    (sendUpdateMessage ctx i s).shared.chanOn = s.shared.chanOn := by
  unfold sendUpdateMessage
  rw [sync_shared_chanOn]
  unfold wrSh
  split <;> rfl

theorem sendUpdate_dummy_chanOn (ctx : Ctx) (i : Int) (s : St) :
    (sendUpdateMessage ctx i s).dummy.chanOn = s.dummy.chanOn := by
  unfold sendUpdateMessage
  rw [sync_dummy_chanOn]
  unfold wrSh
  split <;> rfl

theorem sendUpdate_chanOn (ctx : Ctx) (i : Int) (s : St) :
    (rdSh (sendUpdateMessage ctx i s)).chanOn = (rdSh s).chanOn := by
  apply rdSh_chanOn_congr
  · rw [sendUpdate_eng]
  · rw [sendUpdate_shared_chanOn]
  · rw [sendUpdate_dummy_chanOn]

theorem sync_shared_chanDuty (ctx : Ctx) (s : St) :
    (synchronizeSound ctx s).shared.chanDuty = s.shared.chanDuty := by
  unfold synchronizeSound
  cases hm : s.eng.muted with
  | true => simp [hm]
  | false =>
    simp only [hm, Bool.false_eq_true, if_false]
    split
    · cases hw : ctx.wait <;> (simp [wrSh, hm, FIFO_SEND]; try (split <;> rfl))
    · simp [FIFO_SEND]
      split <;> rfl

theorem sendUpdate_shared_chanDuty (ctx : Ctx) (i : Int) (s : St) :
    (sendUpdateMessage ctx i s).shared.chanDuty = s.shared.chanDuty := by
  unfold sendUpdateMessage
  rw [sync_shared_chanDuty]
  unfold wrSh
  split <;> rfl

theorem sendUpdate_events (ctx : Ctx) (i : Int) (s : St) (h : s.eng.muted = false) :
    ∃ t, (sendUpdateMessage ctx i s).events
        = s.events ++ Ev.sent (GBCmd.update (if i = -1 then 4 else i.toNat)) :: t ∧
      ∀ e ∈ t, e = Ev.fifoPush (GBCmd.update (if i = -1 then 4 else i.toNat)) ∨
        e = Ev.dropped ∨ e = Ev.handshake (GBCmd.update (if i = -1 then 4 else i.toNat)) := by
  unfold sendUpdateMessage
  exact send_via_slot_events ctx (GBCmd.update (if i = -1 then 4 else i.toNat)) s h

theorem sendUpdate_events_zero (ctx : Ctx) (s : St) (h : s.eng.muted = false) :
    ∃ t, (sendUpdateMessage ctx 0 s).events = s.events ++ Ev.sent (GBCmd.update 0) :: t := by
  obtain ⟨t, ht, _⟩ := sendUpdate_events ctx 0 s h
  exact ⟨t, by simpa using ht⟩

theorem sendUpdate_events_zero_after (ctx : Ctx) (s₀ X : St)
    (hm : X.eng.muted = false) (hev : X.events = s₀.events) :
    ∃ t, (sendUpdateMessage ctx 0 X).events = s₀.events ++ Ev.sent (GBCmd.update 0) :: t := by
  obtain ⟨t, ht⟩ := sendUpdate_events_zero ctx X hm
  exact ⟨t, by rw [ht, hev]⟩

theorem sendGlobalVolume_eng (ctx : Ctx) (s : St) :
    (sendGlobalVolumeMessage ctx s).eng = s.eng := by
  unfold sendGlobalVolumeMessage
  rw [sync_eng, wrSh_eng]

theorem sendGlobalVolume_shared_chanOn (ctx : Ctx) (s : St) :
    (sendGlobalVolumeMessage ctx s).shared.chanOn = s.shared.chanOn := by
  unfold sendGlobalVolumeMessage
  rw [sync_shared_chanOn]
  unfold wrSh
  split <;> rfl

theorem sendGlobalVolume_dummy_chanOn (ctx : Ctx) (s : St) :
    (sendGlobalVolumeMessage ctx s).dummy.chanOn = s.dummy.chanOn := by
  unfold sendGlobalVolumeMessage
  rw [sync_dummy_chanOn]
  unfold wrSh
  split <;> rfl

theorem sendGlobalVolume_chanOn (ctx : Ctx) (s : St) :
    (rdSh (sendGlobalVolumeMessage ctx s)).chanOn = (rdSh s).chanOn := by
  apply rdSh_chanOn_congr
  · rw [sendGlobalVolume_eng]
  · rw [sendGlobalVolume_shared_chanOn]
  · rw [sendGlobalVolume_dummy_chanOn]

theorem FIFO_SEND_foldl_queue (L : List GBCmd) :
    ∀ s : St, s.shared.fifosSent - s.shared.fifosReceived + L.length ≤ MAX_FIFOS_WAITING →
      (L.foldl (fun s m => FIFO_SEND m s) s).queue = s.queue ++ L := by
  induction L with
  | nil => intro s _; simp
  | cons m L ih =>
    intro s h
    simp only [List.length_cons] at h
    have hlt : s.shared.fifosSent - s.shared.fifosReceived < MAX_FIFOS_WAITING := by omega
    have hs : FIFO_SEND m s
        = { s with shared := { s.shared with fifosSent := s.shared.fifosSent + 1 },
                   queue := s.queue ++ [m], events := s.events ++ [Ev.fifoPush m] } := by
      unfold FIFO_SEND
      rw [if_pos hlt]
    rw [List.foldl_cons, hs, ih]
    · simp
    · simp only []
      unfold MAX_FIFOS_WAITING at h ⊢
      omega

/-- C4: a send below the outstanding-message threshold increments the
sent counter and enqueues in order; a send at or above the threshold
drops the message with a diagnostic, leaves the counter and queue
unchanged, and (being a total function of the state) never blocks; a
whole burst that stays below the threshold is enqueued in order. -/
theorem fifo_admission_spec (s : St) (m : GBCmd) :
    (s.shared.fifosSent - s.shared.fifosReceived < MAX_FIFOS_WAITING →
      (FIFO_SEND m s).shared.fifosSent = s.shared.fifosSent + 1 ∧
      (FIFO_SEND m s).queue = s.queue ++ [m]) ∧
    (MAX_FIFOS_WAITING ≤ s.shared.fifosSent - s.shared.fifosReceived →
      (FIFO_SEND m s).shared.fifosSent = s.shared.fifosSent ∧
      (FIFO_SEND m s).queue = s.queue ∧
      (FIFO_SEND m s).events = s.events ++ [Ev.dropped]) ∧
    (∀ L : List GBCmd,
      s.shared.fifosSent - s.shared.fifosReceived + L.length ≤ MAX_FIFOS_WAITING →
      (L.foldl (fun s m => FIFO_SEND m s) s).queue = s.queue ++ L) := by
  refine ⟨?_, ?_, fun L hL => FIFO_SEND_foldl_queue L s hL⟩
  · intro h
    unfold FIFO_SEND
    rw [if_pos h]
    exact ⟨rfl, rfl⟩
  · intro h
    unfold FIFO_SEND
    rw [if_neg (by omega)]
    exact ⟨rfl, rfl, rfl⟩

theorem fifo_admission_spec_witness :
    st0.shared.fifosSent - st0.shared.fifosReceived < MAX_FIFOS_WAITING ∧
    ((FIFO_SEND (GBCmd.update 4) st0).shared.fifosSent = st0.shared.fifosSent + 1 ∧
      (FIFO_SEND (GBCmd.update 4) st0).queue = st0.queue ++ [GBCmd.update 4]) :=
  ⟨by decide, (fifo_admission_spec st0 (GBCmd.update 4)).1 (by decide)⟩

/-- C10: muteSND and unmuteSND bypass the admission control used for
every other message: for every state of the counters, at or above the
drop threshold included, they unconditionally increment the sent counter
and enqueue their command, so they are never dropped. -/
theorem mute_unmute_bypass_spec (s : St) :
    (muteSND s).shared.fifosSent = s.shared.fifosSent + 1 ∧
    (muteSND s).queue = s.queue ++ [GBCmd.muteCmd] ∧
    (unmuteSND s).shared.fifosSent = s.shared.fifosSent + 1 ∧
    (unmuteSND s).queue = s.queue ++ [GBCmd.unmuteCmd] :=
  ⟨rfl, rfl, rfl, rfl⟩

/-- C9: in hyper-sync mode, when the frame-flip flags differ or the
rendering core is already at or past the (double-speed-halved) cycle
target, the message goes out immediately through the bounded channel
without entering the cycle wait; and when the transfer-in-progress flag
is observed during the wait, the wait is aborted, the shared cycle field
is reset to the sentinel, and immediate delivery is used. -/
theorem sync_fallback_spec (ctx : Ctx) (s : St)
    (hm : s.eng.muted = false) (hh : (rdSh s).hyperSound = true) :
    ((rdSh s).frameFlip_Gameboy ≠ (rdSh s).frameFlip_DS ∨ syncCycles ctx ≤ (rdSh s).dsCycles →
      synchronizeSound ctx s = FIFO_SEND ((rdSh s).message) (logEv (Ev.sent ((rdSh s).message)) s)) ∧
    ((rdSh s).scaleTransferReady = false →
      (rdSh s).frameFlip_Gameboy = (rdSh s).frameFlip_DS →
      (rdSh s).dsCycles < syncCycles ctx →
      ctx.wait = WaitOutcome.aborted →
      synchronizeSound ctx s
        = FIFO_SEND ((rdSh s).message)
            (wrSh (logEv (Ev.sent ((rdSh s).message)) s) (fun sh => { sh with cycles := -1 }))) := by
  constructor
  · intro hcond
    unfold synchronizeSound
    simp only [hm, Bool.false_eq_true, if_false]
    rw [if_neg]
    intro hC
    exact hC.2.2 hcond
  · intro h1 h2 h3 h4
    unfold synchronizeSound
    simp only [hm, Bool.false_eq_true, if_false]
    rw [if_pos, h4]
    refine ⟨hh, ?_, ?_⟩
    · rw [h1]
      simp
    · push_neg
      exact ⟨h2, h3⟩

/-- A shared block primed for the cycle-accurate path: hyper sync on,
flags aligned, the renderer behind the target. -/
def shHyper : Shared :=
  { sh0 with hyperSound := true, dsCycles := -5 }

def stHyper : St := { st0 with shared := shHyper }

def ctxHyper : Ctx := { ctx0 with cyclesSinceVBlank := 100, wait := WaitOutcome.aborted }

/-- A shared block with mismatched frame-flip flags. -/
def stFlip : St :=
  { st0 with shared := { shHyper with frameFlip_DS := true } }

theorem sync_fallback_spec_witness :
    (stFlip.eng.muted = false ∧ (rdSh stFlip).hyperSound = true ∧
      ((rdSh stFlip).frameFlip_Gameboy ≠ (rdSh stFlip).frameFlip_DS ∨
        syncCycles ctxHyper ≤ (rdSh stFlip).dsCycles) ∧
      synchronizeSound ctxHyper stFlip
        = FIFO_SEND ((rdSh stFlip).message) (logEv (Ev.sent ((rdSh stFlip).message)) stFlip)) ∧
    ((rdSh stHyper).scaleTransferReady = false ∧
      (rdSh stHyper).frameFlip_Gameboy = (rdSh stHyper).frameFlip_DS ∧
      (rdSh stHyper).dsCycles < syncCycles ctxHyper ∧ ctxHyper.wait = WaitOutcome.aborted ∧
      synchronizeSound ctxHyper stHyper
        = FIFO_SEND ((rdSh stHyper).message)
            (wrSh (logEv (Ev.sent ((rdSh stHyper).message)) stHyper)
              (fun sh => { sh with cycles := -1 }))) :=
  ⟨⟨by decide, by decide, by decide,
      (sync_fallback_spec ctxHyper stFlip (by decide) (by decide)).1 (by decide)⟩,
    ⟨by decide, by decide, by decide, by decide,
      (sync_fallback_spec ctxHyper stHyper (by decide) (by decide)).2
        (by decide) (by decide) (by decide) (by decide)⟩⟩

/-- C6 counterexample: a second consecutive disable write of the master
register is not message-silent; it pushes another global Update through
the fifo and bumps the sent counter, so the state is not identical
either. -/
theorem master_disable_idempotent_cex :
    (handleSoundRegister ctx0 0x26 0 st0).queue = [GBCmd.update 4] ∧
    (handleSoundRegister ctx0 0x26 0 st0).shared.fifosSent = 1 ∧
    (handleSoundRegister ctx0 0x26 0 (handleSoundRegister ctx0 0x26 0 st0)).queue
      = [GBCmd.update 4, GBCmd.update 4] ∧
    (handleSoundRegister ctx0 0x26 0 (handleSoundRegister ctx0 0x26 0 st0)).shared.fifosSent
      = 2 := by
  decide

/-- C6 amended: a master-enable write with bit 7 clear zeroes the whole
on-bitmask and hands a global Update to the protocol, and it leaves the
engine-local state unchanged, so repeated disables are idempotent on the
on-bitmask and the channel state; but every disable write emits a
further Update message (repeats are not message-silent). -/
theorem master_disable_spec (ctx : Ctx) (v : Nat) (s : St)
    (hm : s.eng.muted = false) (hv : v &&& 0x80 = 0) :
    (rdSh (handleSoundRegister ctx 0x26 v s)).chanOn = 0 ∧
    (handleSoundRegister ctx 0x26 v s).eng = s.eng ∧
    ∃ t, (handleSoundRegister ctx 0x26 v s).events
        = s.events ++ Ev.sent (GBCmd.update 4) :: t := by
  have hstep : handleSoundRegister ctx 0x26 v s
      = sendUpdateMessage ctx (-1) (wrSh s (fun sh => { sh with chanOn := 0 })) := by
    simp only [handleSoundRegister]
    rw [if_pos hv]
  refine ⟨?_, ?_, ?_⟩
  · rw [hstep, sendUpdate_chanOn, rdSh_wrSh]
  · rw [hstep, sendUpdate_eng, wrSh_eng]
  · rw [hstep]
    obtain ⟨t, ht, _⟩ := sendUpdate_events ctx (-1) (wrSh s (fun sh => { sh with chanOn := 0 }))
      (by rw [wrSh_eng]; exact hm)
    refine ⟨t, ?_⟩
    rw [ht]
    simp

theorem master_disable_spec_witness :
    st0.eng.muted = false ∧ 0 &&& 0x80 = 0 ∧
    ((rdSh (handleSoundRegister ctx0 0x26 0 st0)).chanOn = 0 ∧
      (handleSoundRegister ctx0 0x26 0 st0).eng = st0.eng ∧
      ∃ t, (handleSoundRegister ctx0 0x26 0 st0).events
          = st0.events ++ Ev.sent (GBCmd.update 4) :: t) :=
  ⟨by decide, by decide, master_disable_spec ctx0 0 st0 (by decide) (by decide)⟩

/-- C5 counterexample: the register dispatcher never consults the global
disabled flag (it is read only by updateSound and refresh), so a write
made while the subsystem is disabled still mutates the real shared block
and still emits messages: writing 0xC0 to register 0x11 changes the
shared duty field of channel 0 and pushes an Update through the fifo. -/
theorem disabled_write_cex :
    st0.shared.chanDuty.q0 = 0 ∧
    (handleSoundRegister ctx0 0x11 0xC0 st0).shared.chanDuty.q0 = 3 ∧
    (handleSoundRegister ctx0 0x11 0xC0 st0).events
      = [Ev.sent (GBCmd.update 0), Ev.fifoPush (GBCmd.update 0)] := by
  decide

/-- C5 amended: only the frame advance is gated on the global disabled
flag (updateSound with the flag set is the identity); register writes do
not read the flag at all, so a write while the subsystem is disabled
behaves exactly as when enabled: it updates the local channel fields but
also writes through sharedPtr and (when not muted) emits messages, as
register 0x11 shows. -/
theorem disabled_write_spec (ctx : Ctx) (fuel : Nat) (cycles : Int) (v : Nat) (s : St)
    (hm : s.eng.muted = false) :
    updateSound true ctx fuel cycles s = s ∧
    (handleSoundRegister ctx 0x11 v s).eng.chanLen.get 0 = ((v &&& 0x3F : Nat) : Int) ∧
    (handleSoundRegister ctx 0x11 v s).shared.chanDuty.get 0 = v >>> 6 ∧
    ∃ t, (handleSoundRegister ctx 0x11 v s).events
        = s.events ++ Ev.sent (GBCmd.update 0) :: t := by
  refine ⟨?_, ?_, ?_, ?_⟩
  · unfold updateSound
    rw [if_pos rfl]
  · simp only [handleSoundRegister, refreshSoundDuty]
    by_cases hu : s.eng.chanUseLen.get 0 = true <;>
      simp [hu, sendUpdate_eng, setSEC_eng_chanLen]
  · simp only [handleSoundRegister, refreshSoundDuty]
    by_cases hu : s.eng.chanUseLen.get 0 = true <;>
      simp only [hu, if_true, if_false, Bool.false_eq_true, sendUpdate_shared_chanDuty] <;>
      simp [wrSh, setSEC_eng_muted, hm]
  · simp only [handleSoundRegister, refreshSoundDuty]
    by_cases hu : s.eng.chanUseLen.get 0 = true
    · simp only [hu, if_true]
      apply sendUpdate_events_zero_after
      · simp [setSEC_eng_muted, hm]
      · simp
    · simp only [hu, if_false]
      apply sendUpdate_events_zero_after
      · simp [hm]
      · simp

theorem sendStart_events_after (ctx : Ctx) (i : Nat) (s₀ X : St)
    (hm : X.eng.muted = false) (hev : X.events = s₀.events) :
    ∃ t, (sendStartMessage ctx i X).events = s₀.events ++ t ∧ Ev.sent (GBCmd.start i) ∈ t := by
  obtain ⟨t, ht, _⟩ := sendStart_events ctx i X hm
  exact ⟨Ev.sent (GBCmd.start i) :: t, by rw [ht, hev], by simp⟩

theorem sendUpdate_events_after (ctx : Ctx) (i : Int) (s₀ X : St)
    (hm : X.eng.muted = false) (hev : X.events = s₀.events) :
    ∃ t, (sendUpdateMessage ctx i X).events = s₀.events ++ t ∧
      (∀ j, Ev.sent (GBCmd.start j) ∉ t) ∧
      Ev.sent (GBCmd.update (if i = -1 then 4 else i.toNat)) ∈ t := by
  obtain ⟨t, ht, hP⟩ := sendUpdate_events ctx i X hm
  refine ⟨Ev.sent (GBCmd.update (if i = -1 then 4 else i.toNat)) :: t,
    by rw [ht, hev], ?_, by simp⟩
  intro j hj
  rcases List.mem_cons.mp hj with h | h
  · simp at h
  · have := hP _ h
    simp at this

theorem rsv_false_events (ctx : Ctx) (i : Nat) (s : St) :
    (refreshSoundVolume ctx i false s).events = s.events := by
  unfold refreshSoundVolume
  split
  · rfl
  · rw [if_neg (by simp)]
    simp

theorem sendStart_events_after_rsv (ctx : Ctx) (i j : Nat) (s₀ X : St)
    (hm : X.eng.muted = false) (hev : X.events = s₀.events) :
    ∃ t, (sendStartMessage ctx i (refreshSoundVolume ctx j false X)).events
        = s₀.events ++ t ∧ Ev.sent (GBCmd.start i) ∈ t := by
  apply sendStart_events_after
  · rw [rsv_eng]
    exact hm
  · rw [rsv_false_events]
    exact hev

/-- A context whose io file has the channel-3 DAC enabled and a nonzero
wave-volume register. -/
def ctxDac : Ctx :=
  { ctx0 with io := fun n => if n = 0x1A then 0x80 else if n = 0x1C then 0x40 else 0 }

/-- A state with channel 3 wave volume preset to 5. -/
def stV5 : St := { st0 with eng := { eng0 with chanVol := (Quad.const 0).set 2 5 } }

/-- C1 counterexample: a trigger write to the wave channel register 0x1E
does not set the on-bit or emit Start when the DAC-enable register 0x1A
has bit 7 clear, and even when it does trigger it does not reload the
channel volume from any register. -/
theorem trigger_write_cex :
    (handleSoundRegister ctx0 0x1E 0x80 st0).shared.chanOn = 0 ∧
    (∀ e ∈ (handleSoundRegister ctx0 0x1E 0x80 st0).events, e ≠ Ev.sent (GBCmd.start 2)) ∧
    (handleSoundRegister ctxDac 0x1E 0x80 stV5).shared.chanOn = 4 ∧
    (handleSoundRegister ctxDac 0x1E 0x80 stV5).eng.chanVol.get 2 = 5 := by
  decide

/-- C1 amended: a trigger write (bit 7 of the value set) to 0x14, 0x19 or
0x23 always sets the channel on-bit in the active shared block,
recomputes the length counter as (maxLength - length) * clockSpeed / 256
with maxLength 64, reloads the channel volume from the high nibble of
the envelope register (0x12, 0x17, 0x21), reloads the channel-0 sweep
counter when the sweep time is nonzero, and hands a Start message for
the channel to the protocol.  A trigger write to 0x1E does the
corresponding work with maxLength 256 and no volume reload, and only
when the DAC-enable register 0x1A has bit 7 set; with the DAC disabled
it leaves the on-bitmask unchanged and emits an Update instead of a
Start. -/
theorem trigger_write_spec (ctx : Ctx) (v : Nat) (s : St)
    (hm : s.eng.muted = false) (hv : v &&& 0x80 ≠ 0) :
    ((rdSh (handleSoundRegister ctx 0x14 v s)).chanOn.testBit 0 = true ∧
      (handleSoundRegister ctx 0x14 v s).eng.chanLenCounter.get 0
        = lenReload ctx 64 (s.eng.chanLen.get 0) ∧
      (handleSoundRegister ctx 0x14 v s).eng.chanVol.get 0 = ((ctx.io 0x12 >>> 4 : Nat) : Int) ∧
      (s.eng.chan1SweepTime ≠ 0 →
        (handleSoundRegister ctx 0x14 v s).eng.chan1SweepCounter
          = sweepReload ctx s.eng.chan1SweepTime) ∧
      ∃ t, (handleSoundRegister ctx 0x14 v s).events = s.events ++ t ∧
        Ev.sent (GBCmd.start 0) ∈ t) ∧
    ((rdSh (handleSoundRegister ctx 0x19 v s)).chanOn.testBit 1 = true ∧
      (handleSoundRegister ctx 0x19 v s).eng.chanLenCounter.get 1
        = lenReload ctx 64 (s.eng.chanLen.get 1) ∧
      (handleSoundRegister ctx 0x19 v s).eng.chanVol.get 1 = ((ctx.io 0x17 >>> 4 : Nat) : Int) ∧
      ∃ t, (handleSoundRegister ctx 0x19 v s).events = s.events ++ t ∧
        Ev.sent (GBCmd.start 1) ∈ t) ∧
    ((rdSh (handleSoundRegister ctx 0x23 v s)).chanOn.testBit 3 = true ∧
      (handleSoundRegister ctx 0x23 v s).eng.chanLenCounter.get 3
        = lenReload ctx 64 (s.eng.chanLen.get 3) ∧
      (handleSoundRegister ctx 0x23 v s).eng.chanVol.get 3 = ((ctx.io 0x21 >>> 4 : Nat) : Int) ∧
      ∃ t, (handleSoundRegister ctx 0x23 v s).events = s.events ++ t ∧
        Ev.sent (GBCmd.start 3) ∈ t) ∧
    (ctx.io 0x1A &&& 0x80 ≠ 0 →
      (rdSh (handleSoundRegister ctx 0x1E v s)).chanOn.testBit 2 = true ∧
      (handleSoundRegister ctx 0x1E v s).eng.chanLenCounter.get 2
        = lenReload ctx 256 (s.eng.chanLen.get 2) ∧
      (handleSoundRegister ctx 0x1E v s).eng.chanVol.get 2 = s.eng.chanVol.get 2 ∧
      ∃ t, (handleSoundRegister ctx 0x1E v s).events = s.events ++ t ∧
        Ev.sent (GBCmd.start 2) ∈ t) ∧
    (ctx.io 0x1A &&& 0x80 = 0 →
      (rdSh (handleSoundRegister ctx 0x1E v s)).chanOn = (rdSh s).chanOn ∧
      ∃ t, (handleSoundRegister ctx 0x1E v s).events = s.events ++ t ∧
        (∀ j, Ev.sent (GBCmd.start j) ∉ t) ∧ Ev.sent (GBCmd.update 2) ∈ t) := by
  refine ⟨?_, ?_, ?_, ?_, ?_⟩
  · -- channel 0, register 0x14
    simp only [handleSoundRegister]
    rw [if_pos hv]
    by_cases hu : v &&& 0x40 ≠ 0 <;> by_cases hs1 : s.eng.chan1SweepTime ≠ 0 <;>
      refine ⟨?_, ?_, ?_, fun hsw => ?_, ?_⟩ <;>
        first
          | exact absurd hsw hs1
          | (apply sendStart_events_after_rsv <;>
              simp [hu, hs1, hm, setSEC_eng_muted, setSEC_eng_chan1SweepTime,
                setSEC_eng_chanUseLen, setSEC_eng_chanLen])
          | (rw [sendStart_chanOn, rsv_chanOn]
             simp [hu, hs1, hm, rdSh_setSEC, setSEC_eng_muted, setSEC_shared, setSEC_dummy,
               setSEC_eng_chan1SweepTime, setSEC_eng_chan1SweepCounter, setSEC_eng_chanUseLen,
               setSEC_eng_chanLen, setSEC_eng_chanLenCounter, setSEC_eng_chanVol,
               setSEC_eng_chanFreq, setSEC_eng_chanEnvCounter,
               rsf_shared_chanOn, rsf_dummy_chanOn, rdSh, wrSh, Nat.testBit_or, CHAN_1])
          | simp [hu, hs1, hm, sendStart_eng, rsv_eng, setSEC_eng_muted,
              setSEC_eng_chan1SweepTime, setSEC_eng_chan1SweepCounter, setSEC_eng_chanUseLen,
              setSEC_eng_chanLen, setSEC_eng_chanLenCounter, setSEC_eng_chanVol,
              setSEC_eng_chanFreq, setSEC_eng_chanEnvCounter]
  · -- channel 1, register 0x19
    simp only [handleSoundRegister]
    rw [if_pos hv]
    by_cases hu : v &&& 0x40 ≠ 0 <;>
      refine ⟨?_, ?_, ?_, ?_⟩ <;>
        first
          | (apply sendStart_events_after_rsv <;>
              simp [hu, hm, setSEC_eng_muted, setSEC_eng_chanUseLen, setSEC_eng_chanLen])
          | (rw [sendStart_chanOn, rsv_chanOn]
             simp [hu, hm, rdSh_setSEC, setSEC_eng_muted, setSEC_shared, setSEC_dummy,
               setSEC_eng_chanUseLen, setSEC_eng_chanLen, setSEC_eng_chanLenCounter,
               setSEC_eng_chanVol, setSEC_eng_chanFreq,
               rsf_shared_chanOn, rsf_dummy_chanOn, rdSh, wrSh, Nat.testBit_or, CHAN_2]
             try exact Or.inr (by decide))
          | simp [hu, hm, sendStart_eng, rsv_eng, setSEC_eng_muted, setSEC_eng_chanUseLen,
              setSEC_eng_chanLen, setSEC_eng_chanLenCounter, setSEC_eng_chanVol,
              setSEC_eng_chanFreq]
  · -- channel 3, register 0x23
    simp only [handleSoundRegister]
    rw [if_pos hv]
    by_cases hu : v &&& 0x40 ≠ 0 <;>
      refine ⟨?_, ?_, ?_, ?_⟩ <;>
        first
          | (apply sendStart_events_after_rsv <;>
              simp [hu, hm, setSEC_eng_muted, setSEC_eng_chanUseLen, setSEC_eng_chanLen])
          | (rw [sendStart_chanOn, rsv_chanOn]
             simp [hu, hm, rdSh_setSEC, setSEC_eng_muted, setSEC_shared, setSEC_dummy,
               setSEC_eng_chanUseLen, setSEC_eng_chanLen, setSEC_eng_chanLenCounter,
               setSEC_eng_chanVol, setSEC_eng_chanFreq, rdSh, wrSh, Nat.testBit_or, CHAN_4]
             try exact Or.inr (by decide))
          | simp [hu, hm, sendStart_eng, rsv_eng, setSEC_eng_muted, setSEC_eng_chanUseLen,
              setSEC_eng_chanLen, setSEC_eng_chanLenCounter, setSEC_eng_chanVol,
              setSEC_eng_chanFreq]
  · -- channel 2, register 0x1E, DAC enabled
    intro hdac
    simp only [handleSoundRegister]
    rw [if_pos ⟨hv, hdac⟩]
    by_cases hu : v &&& 0x40 ≠ 0 <;>
      refine ⟨?_, ?_, ?_, ?_⟩ <;>
        first
          | (apply sendStart_events_after_rsv <;>
              simp [hu, hm, setSEC_eng_muted, setSEC_eng_chanUseLen, setSEC_eng_chanLen])
          | (rw [sendStart_chanOn, rsv_chanOn]
             simp [hu, hm, rdSh_setSEC, setSEC_eng_muted, setSEC_shared, setSEC_dummy,
               setSEC_eng_chanUseLen, setSEC_eng_chanLen, setSEC_eng_chanLenCounter,
               setSEC_eng_chanVol, setSEC_eng_chanFreq,
               rsf_shared_chanOn, rsf_dummy_chanOn, rdSh, wrSh, Nat.testBit_or, CHAN_3]
             try exact Or.inr (by decide))
          | simp [hu, hm, sendStart_eng, rsv_eng, setSEC_eng_muted, setSEC_eng_chanUseLen,
              setSEC_eng_chanLen, setSEC_eng_chanLenCounter, setSEC_eng_chanVol,
              setSEC_eng_chanFreq]
  · -- channel 2, register 0x1E, DAC disabled
    intro hdac
    simp only [handleSoundRegister]
    rw [if_neg (by intro h; exact absurd hdac (by simpa using h.2))]
    constructor
    · rw [sendUpdate_chanOn]
      apply rdSh_chanOn_congr <;> simp [rsf_shared_chanOn, rsf_dummy_chanOn]
    · apply sendUpdate_events_after <;> simp [hm]

theorem trigger_write_spec_witness :
    st0.eng.muted = false ∧ (0x80 : Nat) &&& 0x80 ≠ 0 ∧
    ((rdSh (handleSoundRegister ctx0 0x14 0x80 st0)).chanOn.testBit 0 = true ∧
      (handleSoundRegister ctx0 0x14 0x80 st0).eng.chanLenCounter.get 0
        = lenReload ctx0 64 (st0.eng.chanLen.get 0) ∧
      (handleSoundRegister ctx0 0x14 0x80 st0).eng.chanVol.get 0
        = ((ctx0.io 0x12 >>> 4 : Nat) : Int) ∧
      (st0.eng.chan1SweepTime ≠ 0 →
        (handleSoundRegister ctx0 0x14 0x80 st0).eng.chan1SweepCounter
          = sweepReload ctx0 st0.eng.chan1SweepTime) ∧
      ∃ t, (handleSoundRegister ctx0 0x14 0x80 st0).events = st0.events ++ t ∧
        Ev.sent (GBCmd.start 0) ∈ t) :=
  ⟨by decide, by decide, (trigger_write_spec ctx0 0x80 st0 (by decide) (by decide)).1⟩

theorem testBit_andNotMask_false (x m i : Nat) (h : x.testBit i = false) :
    (andNotMask x m).testBit i = false := by
  simp [andNotMask, Nat.testBit_and, h]

theorem one_shift_ne (i j : Nat) (hi : i < 4) (hj : j < 4) (hne : i ≠ j) :
    (1 <<< i) ≠ (1 <<< j) := by
  interval_cases i <;> interval_cases j <;> simp_all

/-- Facts preserved for channel i across an advance once its on-bit is
clear: the length counter is untouched, the bit stays clear, and no
deactivation signal for that channel is emitted. -/
def LenInv (i : Nat) (s₀ s₁ : St) : Prop :=
  s₁.eng.chanLenCounter.get i = s₀.eng.chanLenCounter.get i ∧
  (rdSh s₁).chanOn.testBit i = false ∧
  ∃ t, s₁.events = s₀.events ++ t ∧ Ev.clearChannel (1 <<< i) ∉ t

theorem LenInv_refl (i : Nat) (s : St) (h : (rdSh s).chanOn.testBit i = false) :
    LenInv i s s :=
  ⟨rfl, h, [], by simp, by simp⟩

theorem LenInv_trans {i : Nat} {s₀ s₁ s₂ : St}
    (h1 : LenInv i s₀ s₁) (h2 : LenInv i s₁ s₂) : LenInv i s₀ s₂ := by
  obtain ⟨hc1, hb1, t1, he1, hn1⟩ := h1
  obtain ⟨hc2, hb2, t2, he2, hn2⟩ := h2
  refine ⟨hc2.trans hc1, hb2, t1 ++ t2, ?_, ?_⟩
  · rw [he2, he1, List.append_assoc]
  · intro hmem
    rcases List.mem_append.mp hmem with h | h
    · exact hn1 h
    · exact hn2 h

theorem testBit_false_congr {s s' : St} (i : Nat) (he : s'.eng.muted = s.eng.muted)
    (hs : s'.shared.chanOn = s.shared.chanOn) (hd : s'.dummy.chanOn = s.dummy.chanOn)
    (hb : (rdSh s).chanOn.testBit i = false) : (rdSh s').chanOn.testBit i = false := by
  rw [rdSh_chanOn_congr s s' he hs hd]
  exact hb

theorem sweepStep_lenInv (ctx : Ctx) (i : Nat) (hi : i < 4) (hne : i ≠ 0) (s : St)
    (hb : (rdSh s).chanOn.testBit i = false) : LenInv i s (sweepStep ctx s) := by
  simp only [sweepStep]
  split
  · refine ⟨by simp, ?_, [Ev.clearChannel CHAN_1], by simp, ?_⟩
    · rw [rdSh_logEv, rdSh_wrSh]
      exact testBit_andNotMask_false _ _ _ (testBit_false_congr i rfl rfl rfl hb)
    · simp only [List.mem_singleton, Ev.clearChannel.injEq]
      intro h
      exact one_shift_ne i 0 hi (by norm_num) hne (by simpa [CHAN_1] using h)
  · refine ⟨by simp, ?_, [], by simp, by simp⟩
    rw [rsf_chanOn]
    exact testBit_false_congr i rfl rfl rfl hb

theorem sweepLoop_lenInv (ctx : Ctx) (i : Nat) (hi : i < 4) (hne : i ≠ 0) :
    ∀ (fuel : Nat) (sc : St × Bool), (rdSh sc.1).chanOn.testBit i = false →
      LenInv i sc.1 (sweepLoop ctx fuel sc).1 := by
  intro fuel
  induction fuel with
  | zero => intro sc hb; exact LenInv_refl i sc.1 hb
  | succ n ih =>
    intro sc hb
    rcases sc with ⟨s, ch⟩
    simp only [sweepLoop]
    split
    · have h1 := sweepStep_lenInv ctx i hi hne s hb
      exact LenInv_trans h1 (ih (sweepStep ctx s, true) h1.2.1)
    · exact LenInv_refl i s hb

theorem sweepPass_lenInv (ctx : Ctx) (fuel : Nat) (cycles : Int) (i : Nat) (hi : i < 4)
    (s : St) (hb : (rdSh s).chanOn.testBit i = false) :
    LenInv i s (sweepPass ctx fuel cycles s).1 := by
  by_cases hg : (rdSh s).chanOn &&& CHAN_1 ≠ 0 ∧ s.eng.chan1SweepTime ≠ 0
  · have hne : i ≠ 0 := by
      intro h
      subst h
      have hT := (and_one_shift_ne_iff ((rdSh s).chanOn) 0).mp (by simpa [CHAN_1] using hg.1)
      simp [hb] at hT
    simp only [sweepPass]
    rw [if_pos hg]
    have hb1 : (rdSh { s with eng := { s.eng with chan1SweepCounter :=
        s.eng.chan1SweepCounter - cycles } }).chanOn.testBit i = false :=
      testBit_false_congr i rfl rfl rfl hb
    have h1 : LenInv i s { s with eng := { s.eng with chan1SweepCounter :=
        s.eng.chan1SweepCounter - cycles } } := ⟨rfl, hb1, [], by simp, by simp⟩
    have h2 := sweepLoop_lenInv ctx i hi hne fuel
      ({ s with eng := { s.eng with chan1SweepCounter :=
          s.eng.chan1SweepCounter - cycles } }, false) hb1
    have h12 := LenInv_trans h1 h2
    split
    · exact LenInv_trans h12
        ⟨by rw [setSEC_eng_chanLenCounter], by rw [rdSh_setSEC]; exact h12.2.1,
          [], by simp, by simp⟩
    · exact h12
  · simp only [sweepPass]
    rw [if_neg hg]
    exact LenInv_refl i s hb

theorem envLoop_facts (ctx : Ctx) (j : Nat) :
    ∀ (fuel : Nat) (sc : St × Bool),
      (rdSh (envLoop ctx j fuel sc).1).chanOn = (rdSh sc.1).chanOn ∧
      (envLoop ctx j fuel sc).1.eng.chanLenCounter = sc.1.eng.chanLenCounter ∧
      (envLoop ctx j fuel sc).1.eng.muted = sc.1.eng.muted ∧
      ∃ t, (envLoop ctx j fuel sc).1.events = sc.1.events ++ t ∧
        ∀ e ∈ t, ∀ m, e ≠ Ev.clearChannel m := by
  intro fuel
  induction fuel with
  | zero => exact fun sc => ⟨rfl, rfl, rfl, [], by simp [envLoop], by simp⟩
  | succ n ih =>
    intro sc
    rcases sc with ⟨s, ch⟩
    simp only [envLoop]
    split
    · obtain ⟨ihOn, ihLen, ihMut, t2, ihEv, ihCl⟩ := ih _
      refine ⟨?_, ?_, ?_, ?_⟩
      · rw [ihOn, rsv_chanOn]
        apply rdSh_chanOn_congr <;> (split_ifs <;> rfl)
      · rw [ihLen, rsv_eng]
        split_ifs <;> rfl
      · rw [ihMut, rsv_eng]
        split_ifs <;> rfl
      · obtain ⟨t1, hrev, hrP⟩ := rsv_events ctx j true _
        refine ⟨t1 ++ t2, ?_, ?_⟩
        · rw [ihEv, hrev]
          split_ifs <;> simp
        · intro e he m
          rcases List.mem_append.mp he with h | h
          · rcases hrP e h with h' | h' | h' | h' <;> simp [h']
          · exact ihCl e h m
    · exact ⟨rfl, rfl, rfl, [], by simp, by simp⟩

theorem envChan_facts (ctx : Ctx) (fuel : Nat) (cycles : Int) (j : Nat) (sc : St × Bool) :
    (rdSh (envChan ctx fuel cycles j sc).1).chanOn = (rdSh sc.1).chanOn ∧
    (envChan ctx fuel cycles j sc).1.eng.chanLenCounter = sc.1.eng.chanLenCounter ∧
    (envChan ctx fuel cycles j sc).1.eng.muted = sc.1.eng.muted ∧
    ∃ t, (envChan ctx fuel cycles j sc).1.events = sc.1.events ++ t ∧
      ∀ e ∈ t, ∀ m, e ≠ Ev.clearChannel m := by
  rcases sc with ⟨s, ch⟩
  simp only [envChan]
  split
  · split
    · obtain ⟨ihOn, ihLen, ihMut, t2, ihEv, ihCl⟩ := envLoop_facts ctx j fuel _
      refine ⟨?_, ?_, ?_, ?_⟩
      · split
        · rw [rdSh_setSEC, ihOn]
          exact rdSh_chanOn_congr _ _ rfl rfl rfl
        · rw [ihOn]
          exact rdSh_chanOn_congr _ _ rfl rfl rfl
      · split
        · rw [setSEC_eng_chanLenCounter, ihLen]
        · rw [ihLen]
      · split
        · rw [setSEC_eng_muted, ihMut]
        · rw [ihMut]
      · refine ⟨t2, ?_, ihCl⟩
        split
        · rw [setSEC_events, ihEv]
        · rw [ihEv]
    · exact ⟨rfl, rfl, rfl, [], by simp, by simp⟩
  · exact ⟨rfl, rfl, rfl, [], by simp, by simp⟩

theorem envChan_lenInv (ctx : Ctx) (fuel : Nat) (cycles : Int) (j i : Nat) (sc : St × Bool)
    (hb : (rdSh sc.1).chanOn.testBit i = false) :
    LenInv i sc.1 (envChan ctx fuel cycles j sc).1 := by
  obtain ⟨hOn, hLen, _, t, hEv, hCl⟩ := envChan_facts ctx fuel cycles j sc
  exact ⟨by rw [hLen], by rw [hOn]; exact hb, t, hEv, fun hmem => hCl _ hmem _ rfl⟩

theorem lenChan_lenInv (cycles : Int) (j i : Nat) (hi : i < 4) (hj : j < 4) (sc : St × Bool)
    (hb : (rdSh sc.1).chanOn.testBit i = false) :
    LenInv i sc.1 (lenChan cycles j sc).1 := by
  rcases sc with ⟨s, ch⟩
  by_cases hij : j = i
  · subst hij
    simp only [lenChan]
    rw [if_neg]
    · exact LenInv_refl j s hb
    · intro h
      have hT := (and_one_shift_ne_iff ((rdSh s).chanOn) j).mp h.1
      simp [hb] at hT
  · simp only [lenChan]
    split
    · split
      · refine ⟨?_, ?_, [Ev.clearChannel (1 <<< j)], by simp, ?_⟩
        · simp [Quad.get_set_ne _ j i _ hj hi hij]
        · rw [rdSh_logEv, rdSh_wrSh]
          exact testBit_andNotMask_false _ _ _ (testBit_false_congr i rfl rfl rfl hb)
        · simp only [List.mem_singleton, Ev.clearChannel.injEq]
          intro h
          exact one_shift_ne i j hi hj (fun h' => hij h'.symm) h
      · refine ⟨?_, ?_, [], by simp, by simp⟩
        · rw [setSEC_eng_chanLenCounter]
          simp [Quad.get_set_ne _ j i _ hj hi hij]
        · rw [rdSh_setSEC]
          exact testBit_false_congr i rfl rfl rfl hb
    · exact LenInv_refl i s hb

theorem sendUpdate_lenInv (ctx : Ctx) (k : Int) (i : Nat) (s : St)
    (hb : (rdSh s).chanOn.testBit i = false) : LenInv i s (sendUpdateMessage ctx k s) := by
  refine ⟨by rw [sendUpdate_eng], by rw [sendUpdate_chanOn]; exact hb, ?_⟩
  unfold sendUpdateMessage
  obtain ⟨t, hEv, hP⟩ := sync_events_all ctx
    (wrSh s (fun sh => { sh with message := GBCmd.update (if k = -1 then 4 else k.toNat) }))
  refine ⟨t, by rw [hEv]; simp, ?_⟩
  intro hmem
  rcases hP _ hmem with h | h | h | h <;> simp at h

theorem FIFO_SEND_lenInv (m : GBCmd) (i : Nat) (s : St)
    (hb : (rdSh s).chanOn.testBit i = false) : LenInv i s (FIFO_SEND m s) := by
  refine ⟨by simp, testBit_false_congr i (by simp) (by simp) (by simp) hb, ?_⟩
  rcases FIFO_SEND_events m s with h | h
  · exact ⟨[Ev.fifoPush m], h, by simp⟩
  · exact ⟨[Ev.dropped], h, by simp⟩

theorem updateSend_lenInv (ctx : Ctx) (i : Nat) (sc : St × Bool)
    (hb : (rdSh sc.1).chanOn.testBit i = false) :
    LenInv i sc.1 (updateSend ctx sc) := by
  unfold updateSend
  split
  · split
    · exact sendUpdate_lenInv ctx (-1) i sc.1 hb
    · split
      · exact LenInv_refl i sc.1 hb
      · exact FIFO_SEND_lenInv (GBCmd.update 4) i sc.1 hb
  · exact LenInv_refl i sc.1 hb

theorem updateSound_lenInv (sd : Bool) (ctx : Ctx) (fuel : Nat) (cycles : Int)
    (i : Nat) (hi : i < 4) (s : St) (hb : (rdSh s).chanOn.testBit i = false) :
    LenInv i s (updateSound sd ctx fuel cycles s) := by
  unfold updateSound
  split
  · exact LenInv_refl i s hb
  · have h1 := sweepPass_lenInv ctx fuel cycles i hi s hb
    have h2 := envChan_lenInv ctx fuel cycles 0 i _ h1.2.1
    have h12 := LenInv_trans h1 h2
    have h3 := envChan_lenInv ctx fuel cycles 1 i _ h12.2.1
    have h13 := LenInv_trans h12 h3
    have h4 := envChan_lenInv ctx fuel cycles 2 i _ h13.2.1
    have h14 := LenInv_trans h13 h4
    have h5 := envChan_lenInv ctx fuel cycles 3 i _ h14.2.1
    have h15 := LenInv_trans h14 h5
    have h6 := lenChan_lenInv cycles 0 i hi (by norm_num) _ h15.2.1
    have h16 := LenInv_trans h15 h6
    have h7 := lenChan_lenInv cycles 1 i hi (by norm_num) _ h16.2.1
    have h17 := LenInv_trans h16 h7
    have h8 := lenChan_lenInv cycles 2 i hi (by norm_num) _ h17.2.1
    have h18 := LenInv_trans h17 h8
    have h9 := lenChan_lenInv cycles 3 i hi (by norm_num) _ h18.2.1
    have h19 := LenInv_trans h18 h9
    exact LenInv_trans h19 (updateSend_lenInv ctx i _ h19.2.1)

/-- C3: each sweep firing recomputes the channel-1 frequency by
shift-and-add with the sweep direction; whenever the result exceeds
0x7FF the on-bit is cleared and the Gameboy collaborator is signaled
with clearSoundChannel; otherwise the real frequency derived from the
updated frequency is pushed to the shared block; and once the on-bit is
clear, no advance call ever sets it again, so only a new trigger write
can revive the channel. -/
theorem sweep_overflow_spec (sd : Bool) (ctx : Ctx) (fuel : Nat) (cycles : Int) (s : St) :
    ((sweepStep ctx s).eng.chanFreq.get 0
        = s.eng.chanFreq.get 0
          + (s.eng.chanFreq.get 0 >>> s.eng.chan1SweepAmount) * s.eng.chan1SweepDir) ∧
    (s.eng.chanFreq.get 0
        + (s.eng.chanFreq.get 0 >>> s.eng.chan1SweepAmount) * s.eng.chan1SweepDir > 0x7FF →
      (rdSh (sweepStep ctx s)).chanOn.testBit 0 = false ∧
      (sweepStep ctx s).events = s.events ++ [Ev.clearChannel CHAN_1]) ∧
    (s.eng.chanFreq.get 0
        + (s.eng.chanFreq.get 0 >>> s.eng.chan1SweepAmount) * s.eng.chan1SweepDir ≤ 0x7FF →
      (rdSh (sweepStep ctx s)).chanOn = (rdSh s).chanOn ∧
      (rdSh (sweepStep ctx s)).chanRealFreq.get 0
        = Int.tdiv 131072
            (2048 - (s.eng.chanFreq.get 0
              + (s.eng.chanFreq.get 0 >>> s.eng.chan1SweepAmount) * s.eng.chan1SweepDir)) * 8) ∧
    ((rdSh s).chanOn.testBit 0 = false →
      (rdSh (updateSound sd ctx fuel cycles s)).chanOn.testBit 0 = false) := by
  refine ⟨?_, ?_, ?_, ?_⟩
  · simp only [sweepStep]
    split <;> simp
  · intro h
    simp only [sweepStep, Quad.get_set_self]
    rw [if_pos h]
    refine ⟨?_, by simp⟩
    rw [rdSh_logEv, rdSh_wrSh]
    exact testBit_andNotMask_self _ 0 (by norm_num)
  · intro h
    simp only [sweepStep, Quad.get_set_self]
    rw [if_neg (not_lt.mpr h)]
    constructor
    · rw [rsf_chanOn]
      exact rdSh_chanOn_congr _ _ rfl rfl rfl
    · unfold refreshSoundFreq
      rw [rdSh_wrSh]
      simp
  · intro hb
    exact (updateSound_lenInv sd ctx fuel cycles 0 (by norm_num) s hb).2.1

/-- An engine with channel 1 swept upward from a high frequency, so the
next firing overflows. -/
def engOv : Engine :=
  { eng0 with chan1SweepTime := 1, chan1SweepDir := 1, chan1SweepAmount := 0, chanFreq := (Quad.const 0).set 0 0x700 }

/-- A state with channel 1 on, using engOv. -/
def stOv : St := { st0 with eng := engOv, shared := { sh0 with chanOn := 1 } }

/-- An engine with channel 1 swept downward from 0x400. -/
def engDn : Engine :=
  { eng0 with chan1SweepTime := 2, chan1SweepDir := -1, chan1SweepAmount := 1, chanFreq := (Quad.const 0).set 0 0x400 }

/-- A state with channel 1 on, using engDn. -/
def stDn : St := { st0 with eng := engDn, shared := { sh0 with chanOn := 1 } }

theorem sweep_overflow_spec_witness :
    (stOv.eng.chanFreq.get 0
        + (stOv.eng.chanFreq.get 0 >>> stOv.eng.chan1SweepAmount) * stOv.eng.chan1SweepDir > 0x7FF ∧
      (rdSh (sweepStep ctx0 stOv)).chanOn.testBit 0 = false ∧
      (sweepStep ctx0 stOv).events = stOv.events ++ [Ev.clearChannel CHAN_1]) ∧
    (stDn.eng.chanFreq.get 0
        + (stDn.eng.chanFreq.get 0 >>> stDn.eng.chan1SweepAmount) * stDn.eng.chan1SweepDir ≤ 0x7FF ∧
      (rdSh (sweepStep ctx0 stDn)).chanOn = (rdSh stDn).chanOn ∧
      (rdSh (sweepStep ctx0 stDn)).chanRealFreq.get 0
        = Int.tdiv 131072
            (2048 - (stDn.eng.chanFreq.get 0
              + (stDn.eng.chanFreq.get 0 >>> stDn.eng.chan1SweepAmount) * stDn.eng.chan1SweepDir)) * 8) ∧
    ((rdSh st0).chanOn.testBit 0 = false ∧
      (rdSh (updateSound false ctx0 3 9 st0)).chanOn.testBit 0 = false) :=
  ⟨⟨by decide, (sweep_overflow_spec false ctx0 3 9 stOv).2.1 (by decide)⟩,
    ⟨by decide, (sweep_overflow_spec false ctx0 3 9 stDn).2.2.1 (by decide)⟩,
    ⟨by decide, (sweep_overflow_spec false ctx0 3 9 st0).2.2.2 (by decide)⟩⟩

/-- C7: for a channel that is on and length-enabled, a length counter
expiry inside the length pass clears that channel on-bit, signals
deactivation for exactly that channel exactly once, and marks the frame
changed; and once the on-bit is clear, any further advance leaves the
length counter untouched, keeps the bit clear, and emits no further
deactivation signal for that channel until a new trigger write. -/
theorem length_expiry_once_spec (sd : Bool) (ctx : Ctx) (fuel : Nat) (cycles : Int)
    (i : Nat) (hi : i < 4) (s : St) (ch : Bool) :
    ((rdSh s).chanOn &&& (1 <<< i) ≠ 0 → s.eng.chanUseLen.get i = true →
      s.eng.chanLenCounter.get i - cycles ≤ 0 →
      (rdSh (lenChan cycles i (s, ch)).1).chanOn.testBit i = false ∧
      (lenChan cycles i (s, ch)).1.events = s.events ++ [Ev.clearChannel (1 <<< i)] ∧
      (lenChan cycles i (s, ch)).2 = true) ∧
    ((rdSh s).chanOn.testBit i = false →
      (updateSound sd ctx fuel cycles s).eng.chanLenCounter.get i
        = s.eng.chanLenCounter.get i ∧
      (rdSh (updateSound sd ctx fuel cycles s)).chanOn.testBit i = false ∧
      ∃ t, (updateSound sd ctx fuel cycles s).events = s.events ++ t ∧
        Ev.clearChannel (1 <<< i) ∉ t) := by
  constructor
  · intro hOn hUse hCnt
    simp only [lenChan, Quad.get_set_self]
    rw [if_pos ⟨hOn, hUse⟩, if_pos hCnt]
    refine ⟨?_, by simp, rfl⟩
    rw [rdSh_logEv, rdSh_wrSh]
    exact testBit_andNotMask_self _ i (by omega)
  · intro hb
    obtain ⟨hc, hbit, t, hev, hcl⟩ := updateSound_lenInv sd ctx fuel cycles i hi s hb
    exact ⟨hc, hbit, t, hev, hcl⟩

/-- An engine with channel 2 length-enabled and nearly expired. -/
def engLen : Engine :=
  { eng0 with chanUseLen := (Quad.const false).set 1 true, chanLenCounter := (Quad.const 0).set 1 5 }

/-- A state with channel 2 on, using engLen. -/
def stLen : St := { st0 with eng := engLen, shared := { sh0 with chanOn := 2 } }

theorem length_expiry_once_spec_witness :
    (1 < 4 ∧ (rdSh stLen).chanOn &&& (1 <<< 1) ≠ 0 ∧ stLen.eng.chanUseLen.get 1 = true ∧
      stLen.eng.chanLenCounter.get 1 - 6 ≤ 0 ∧
      ((rdSh (lenChan 6 1 (stLen, false)).1).chanOn.testBit 1 = false ∧
        (lenChan 6 1 (stLen, false)).1.events = stLen.events ++ [Ev.clearChannel (1 <<< 1)] ∧
        (lenChan 6 1 (stLen, false)).2 = true)) ∧
    ((rdSh st0).chanOn.testBit 1 = false ∧
      ((updateSound false ctx0 3 9 st0).eng.chanLenCounter.get 1
          = st0.eng.chanLenCounter.get 1 ∧
        (rdSh (updateSound false ctx0 3 9 st0)).chanOn.testBit 1 = false ∧
        ∃ t, (updateSound false ctx0 3 9 st0).events = st0.events ++ t ∧
          Ev.clearChannel (1 <<< 1) ∉ t)) :=
  ⟨⟨by decide, by decide, by decide, by decide,
      (length_expiry_once_spec false ctx0 3 9 1 (by decide) stLen false).1
        (by decide) (by decide) (by decide)⟩,
    ⟨by decide,
      (length_expiry_once_spec false ctx0 3 9 1 (by decide) st0 false).2 (by decide)⟩⟩

theorem disabled_write_spec_witness :
    st0.eng.muted = false ∧
    (updateSound true ctx0 5 7 st0 = st0 ∧
      (handleSoundRegister ctx0 0x11 0xC0 st0).eng.chanLen.get 0 = ((0xC0 &&& 0x3F : Nat) : Int) ∧
      (handleSoundRegister ctx0 0x11 0xC0 st0).shared.chanDuty.get 0 = 0xC0 >>> 6 ∧
      ∃ t, (handleSoundRegister ctx0 0x11 0xC0 st0).events
          = st0.events ++ Ev.sent (GBCmd.update 0) :: t) :=
  ⟨by decide, disabled_write_spec ctx0 5 7 0xC0 st0 (by decide)⟩

@[simp] theorem Quad.set_set (q : Quad α) (i : Nat) (a v : α) :
    (q.set i a).set i v = q.set i v := by
  rcases i with _ | _ | _ | i <;> rfl

/-- All four channel volumes lie in the 4-bit range. -/
def QuadBounds (q : Quad Int) : Prop :=
  (0 ≤ q.q0 ∧ q.q0 ≤ 15) ∧ (0 ≤ q.q1 ∧ q.q1 ≤ 15) ∧
    (0 ≤ q.q2 ∧ q.q2 ≤ 15) ∧ (0 ≤ q.q3 ∧ q.q3 ≤ 15)

theorem QuadBounds_set (q : Quad Int) (i : Nat) (v : Int) (hv0 : 0 ≤ v) (hv15 : v ≤ 15)
    (hq : QuadBounds q) : QuadBounds (q.set i v) := by
  rcases i with _ | _ | _ | i <;> simp_all [QuadBounds, Quad.set]

theorem QuadBounds_iff (q : Quad Int) :
    QuadBounds q ↔ ∀ i < 4, 0 ≤ q.get i ∧ q.get i ≤ 15 := by
  constructor
  · intro h i hi
    interval_cases i <;> simp_all [QuadBounds, Quad.get]
  · intro h
    exact ⟨h 0 (by norm_num), h 1 (by norm_num), h 2 (by norm_num), h 3 (by norm_num)⟩

theorem sweepStep_chanVol (ctx : Ctx) (s : St) :
    (sweepStep ctx s).eng.chanVol = s.eng.chanVol := by
  simp only [sweepStep]
  split <;> simp

theorem sweepLoop_chanVol (ctx : Ctx) :
    ∀ (fuel : Nat) (sc : St × Bool),
      (sweepLoop ctx fuel sc).1.eng.chanVol = sc.1.eng.chanVol := by
  intro fuel
  induction fuel with
  | zero => intro sc; rfl
  | succ n ih =>
    intro sc
    rcases sc with ⟨s, ch⟩
    simp only [sweepLoop]
    split
    · rw [ih (sweepStep ctx s, true), sweepStep_chanVol]
    · rfl

theorem sweepPass_chanVol (ctx : Ctx) (fuel : Nat) (cycles : Int) (s : St) :
    (sweepPass ctx fuel cycles s).1.eng.chanVol = s.eng.chanVol := by
  simp only [sweepPass]
  split
  · split
    · rw [setSEC_eng_chanVol, sweepLoop_chanVol]
    · rw [sweepLoop_chanVol]
  · rfl

theorem envLoop_volBounds (ctx : Ctx) (j : Nat) :
    ∀ (fuel : Nat) (sc : St × Bool), QuadBounds sc.1.eng.chanVol →
      QuadBounds (envLoop ctx j fuel sc).1.eng.chanVol := by
  intro fuel
  induction fuel with
  | zero => intro sc h; simpa [envLoop] using h
  | succ n ih =>
    intro sc h
    rcases sc with ⟨s, ch⟩
    simp only [envLoop]
    split
    · apply ih
      rw [rsv_eng]
      simp only [Quad.get_set_self, Quad.set_set]
      split_ifs with h1 h2 h2 <;>
        simp only [Quad.get_set_self, Quad.set_set] at * <;>
        exact QuadBounds_set _ j _ (by omega) (by omega) h
    · simpa using h


theorem envChan_volBounds (ctx : Ctx) (fuel : Nat) (cycles : Int) (j : Nat) (sc : St × Bool)
    (h : QuadBounds sc.1.eng.chanVol) :
    QuadBounds (envChan ctx fuel cycles j sc).1.eng.chanVol := by
  rcases sc with ⟨s, ch⟩
  simp only [envChan]
  split
  · split
    · split
      · rw [setSEC_eng_chanVol]
        apply envLoop_volBounds
        simpa using h
      · apply envLoop_volBounds
        simpa using h
    · simpa using h
  · simpa using h

theorem lenChan_chanVol (cycles : Int) (j : Nat) (sc : St × Bool) :
    (lenChan cycles j sc).1.eng.chanVol = sc.1.eng.chanVol := by
  rcases sc with ⟨s, ch⟩
  simp only [lenChan]
  split
  · split
    · simp
    · rw [setSEC_eng_chanVol]
  · rfl

theorem updateSend_chanVol (ctx : Ctx) (sc : St × Bool) :
    (updateSend ctx sc).eng.chanVol = sc.1.eng.chanVol := by
  unfold updateSend
  split
  · split
    · rw [sendUpdate_eng]
    · split
      · rfl
      · simp
  · rfl

theorem updateSound_volBounds (sd : Bool) (ctx : Ctx) (fuel : Nat) (cycles : Int) (s : St)
    (h : QuadBounds s.eng.chanVol) :
    QuadBounds (updateSound sd ctx fuel cycles s).eng.chanVol := by
  unfold updateSound
  split
  · exact h
  · rw [updateSend_chanVol, lenChan_chanVol, lenChan_chanVol, lenChan_chanVol, lenChan_chanVol]
    apply envChan_volBounds
    apply envChan_volBounds
    apply envChan_volBounds
    apply envChan_volBounds
    rw [sweepPass_chanVol]
    exact h

/-- A sequence of frame advances, each with its own disabled flag, loop
bound, and elapsed cycle count. -/
def advances (ctx : Ctx) (L : List (Bool × Nat × Int)) (s : St) : St :=
  L.foldl (fun s p => updateSound p.1 ctx p.2.1 p.2.2 s) s

/-- C8: for every envelope direction and period (they are part of the
state) and every sequence of advance calls, the channel volumes stay in
the 4-bit range 0..15; the clamp in the envelope pass keeps every fired
update inside the range, and no other part of the advance writes the
volume.  The bounds hypothesis holds in every reachable state since
register writes store 4-bit values. -/
theorem envelope_volume_range_spec (ctx : Ctx) (L : List (Bool × Nat × Int)) (s : St)
    (h : ∀ i, i < 4 → 0 ≤ s.eng.chanVol.get i ∧ s.eng.chanVol.get i ≤ 15) :
    ∀ i, i < 4 → 0 ≤ (advances ctx L s).eng.chanVol.get i ∧
      (advances ctx L s).eng.chanVol.get i ≤ 15 := by
  rw [← QuadBounds_iff]
  rw [← QuadBounds_iff] at h
  unfold advances
  induction L generalizing s with
  | nil => exact h
  | cons p L ih =>
    rw [List.foldl_cons]
    exact ih _ (updateSound_volBounds p.1 ctx p.2.1 p.2.2 s h)

/-- An engine with an upward envelope on channel 1 about to fire at
volume 14, so the clamp is exercised. -/
def engEnv : Engine :=
  { eng0 with chanEnvSweep := (Quad.const 0).set 0 1, chanEnvDir := (Quad.const 0).set 0 1, chanVol := (Quad.const 0).set 0 14, chanEnvCounter := (Quad.const 0).set 0 3 }

/-- A state with channel 1 on, using engEnv. -/
def stEnv : St := { st0 with eng := engEnv, shared := { sh0 with chanOn := 1 } }

theorem envelope_volume_range_spec_witness :
    (∀ i, i < 4 → 0 ≤ stEnv.eng.chanVol.get i ∧ stEnv.eng.chanVol.get i ≤ 15) ∧
    (∀ i, i < 4 →
      0 ≤ (advances ctx0 [(false, 3, 10), (false, 3, 10)] stEnv).eng.chanVol.get i ∧
      (advances ctx0 [(false, 3, 10), (false, 3, 10)] stEnv).eng.chanVol.get i ≤ 15) :=
  ⟨by decide, envelope_volume_range_spec ctx0 [(false, 3, 10), (false, 3, 10)] stEnv (by decide)⟩

theorem rdSh_eq_shared (s : St) (h : s.eng.muted = false) : rdSh s = s.shared := by
  unfold rdSh
  rw [h]
  simp

theorem pan_chanOn (i : Nat) (s : St) :
    (rdSh (refreshSoundPan i s)).chanOn = (rdSh s).chanOn := by
  unfold refreshSoundPan
  rw [rdSh_wrSh]

/-- The events of the second state extend those of the first. -/
def evApp (s₀ s₁ : St) : Prop := ∃ t, s₁.events = s₀.events ++ t

/-- The events of the second state extend those of the first and none of
the new ones hands a Start message to the protocol. -/
def noStartEv (s₀ s₁ : St) : Prop :=
  ∃ t, s₁.events = s₀.events ++ t ∧ ∀ j, Ev.sent (GBCmd.start j) ∉ t

theorem noStartEv_of_events {s₀ X : St} (h : X.events = s₀.events) : noStartEv s₀ X :=
  ⟨[], by simp [h], by simp⟩

theorem noStartEv_evApp {s₀ X : St} (h : noStartEv s₀ X) : evApp s₀ X :=
  ⟨h.choose, h.choose_spec.1⟩

theorem evApp_mem {s₀ s₁ : St} (h : evApp s₀ s₁) (e : Ev) (he : e ∈ s₀.events) :
    e ∈ s₁.events := by
  obtain ⟨t, ht⟩ := h
  rw [ht]
  exact List.mem_append_left t he

theorem noStartEv_sync (ctx : Ctx) {s₀ X : St} (hmsg : ∀ j, (rdSh X).message ≠ GBCmd.start j)
    (h : noStartEv s₀ X) : noStartEv s₀ (synchronizeSound ctx X) := by
  obtain ⟨t1, he1, hn1⟩ := h
  obtain ⟨t2, he2, hP⟩ := sync_events_all ctx X
  refine ⟨t1 ++ t2, by rw [he2, he1, List.append_assoc], ?_⟩
  intro j hj
  rcases List.mem_append.mp hj with hmem | hmem
  · exact hn1 j hmem
  · rcases hP _ hmem with h' | h' | h' | h'
    · injection h' with h''
      exact hmsg j h''.symm
    · simp at h'
    · simp at h'
    · simp at h'

theorem noStartEv_sendUpdate (ctx : Ctx) (k : Int) {s₀ X : St} (h : noStartEv s₀ X) :
    noStartEv s₀ (sendUpdateMessage ctx k X) := by
  unfold sendUpdateMessage
  apply noStartEv_sync
  · intro j
    rw [rdSh_wrSh]
    simp
  · obtain ⟨t, he, hn⟩ := h
    exact ⟨t, by simpa using he, hn⟩

theorem noStartEv_sendGlobal (ctx : Ctx) {s₀ X : St} (h : noStartEv s₀ X) :
    noStartEv s₀ (sendGlobalVolumeMessage ctx X) := by
  unfold sendGlobalVolumeMessage
  apply noStartEv_sync
  · intro j
    rw [rdSh_wrSh]
    simp
  · obtain ⟨t, he, hn⟩ := h
    exact ⟨t, by simpa using he, hn⟩

theorem noStartEv_rsv (ctx : Ctx) (i : Nat) (b : Bool) {s₀ X : St} (h : noStartEv s₀ X) :
    noStartEv s₀ (refreshSoundVolume ctx i b X) := by
  obtain ⟨t1, he1, hn1⟩ := h
  obtain ⟨t2, he2, hP⟩ := rsv_events ctx i b X
  refine ⟨t1 ++ t2, by rw [he2, he1, List.append_assoc], ?_⟩
  intro j hj
  rcases List.mem_append.mp hj with hmem | hmem
  · exact hn1 j hmem
  · rcases hP _ hmem with h' | h' | h' | h' <;> simp at h'
theorem ite_muted (c : Prop) [Decidable c] (A B : St) :
    (ite c A B).eng.muted = ite c A.eng.muted B.eng.muted :=
  apply_ite (fun X : St => X.eng.muted) c A B

set_option maxHeartbeats 1000000 in
theorem hsr_muted (ctx : Ctx) (a v : Nat) (s : St) :
    (handleSoundRegister ctx a v s).eng.muted = s.eng.muted := by
  unfold handleSoundRegister
  split <;>
    simp [ite_muted, sendStart_eng, sendUpdate_eng, sendGlobalVolume_eng, rsv_eng,
      setSEC_eng_muted, refreshSoundDuty]
theorem ite_shared_chanOn (c : Prop) [Decidable c] (A B : St) :
    (ite c A B).shared.chanOn = ite c A.shared.chanOn B.shared.chanOn :=
  apply_ite (fun X : St => X.shared.chanOn) c A B

theorem ite_events (c : Prop) [Decidable c] (A B : St) :
    (ite c A B).events = ite c A.events B.events :=
  apply_ite (fun X : St => X.events) c A B

theorem noStartEv_refl (s : St) : noStartEv s s :=
  noStartEv_of_events rfl

theorem noStartEv_trans {a b c : St} (h1 : noStartEv a b) (h2 : noStartEv b c) :
    noStartEv a c := by
  obtain ⟨t1, he1, hn1⟩ := h1
  obtain ⟨t2, he2, hn2⟩ := h2
  refine ⟨t1 ++ t2, by rw [he2, he1, List.append_assoc], ?_⟩
  intro j hj
  rcases List.mem_append.mp hj with h | h
  · exact hn1 j h
  · exact hn2 j h

theorem evApp_refl (s : St) : evApp s s :=
  ⟨[], by simp⟩

/-- A value masked with 0x7F has the trigger bit clear. -/
theorem and7F_and80 (x : Nat) : (x &&& 0x7F) &&& 0x80 = 0 := by
  rw [Nat.and_assoc, show (0x7F &&& 0x80 : Nat) = 0 from by decide, Nat.and_zero]

set_option maxHeartbeats 1600000 in
/-- During the bulk resync pass every register write keeps the shared
on-bitmask at zero, provided the trigger registers arrive with the
trigger bit masked off. -/
theorem hsr_bulk_shared_chanOn (ctx : Ctx) (a v : Nat) (s : St)
    (hv : (a = 0x14 ∨ a = 0x19 ∨ a = 0x1E ∨ a = 0x23) → v &&& 0x80 = 0)
    (h0 : s.shared.chanOn = 0) :
    (handleSoundRegister ctx a v s).shared.chanOn = 0 := by
  unfold handleSoundRegister
  split
  case h_5 =>
    have h80 := hv (by omega)
    simp [ite_shared_chanOn, sendUpdate_shared_chanOn, sendStart_shared_chanOn,
      sendGlobalVolume_shared_chanOn, rsv_shared_chanOn, rsf_shared_chanOn,
      pan_shared_chanOn, refreshSoundDuty, wrSh, andNotMask, h80, h0]
  case h_9 =>
    have h80 := hv (by omega)
    simp [ite_shared_chanOn, sendUpdate_shared_chanOn, sendStart_shared_chanOn,
      sendGlobalVolume_shared_chanOn, rsv_shared_chanOn, rsf_shared_chanOn,
      pan_shared_chanOn, refreshSoundDuty, wrSh, andNotMask, h80, h0]
  case h_14 =>
    have h80 := hv (by omega)
    simp [ite_shared_chanOn, sendUpdate_shared_chanOn, sendStart_shared_chanOn,
      sendGlobalVolume_shared_chanOn, rsv_shared_chanOn, rsf_shared_chanOn,
      pan_shared_chanOn, refreshSoundDuty, wrSh, andNotMask, h80, h0]
  case h_18 =>
    have h80 := hv (by omega)
    simp [ite_shared_chanOn, sendUpdate_shared_chanOn, sendStart_shared_chanOn,
      sendGlobalVolume_shared_chanOn, rsv_shared_chanOn, rsf_shared_chanOn,
      pan_shared_chanOn, refreshSoundDuty, wrSh, andNotMask, h80, h0]
  all_goals
    simp [ite_shared_chanOn, sendUpdate_shared_chanOn, sendStart_shared_chanOn,
      sendGlobalVolume_shared_chanOn, rsv_shared_chanOn, rsf_shared_chanOn,
      pan_shared_chanOn, refreshSoundDuty, wrSh, andNotMask, h0]
set_option maxHeartbeats 1600000 in
set_option linter.unusedTactic false in
/-- During the bulk resync pass no register write hands a Start message
to the protocol, provided the trigger registers arrive with the trigger
bit masked off. -/
theorem hsr_bulk_noStart (ctx : Ctx) (a v : Nat) (s : St)
    (hv : (a = 0x14 ∨ a = 0x19 ∨ a = 0x1E ∨ a = 0x23) → v &&& 0x80 = 0) :
    noStartEv s (handleSoundRegister ctx a v s) := by
  unfold handleSoundRegister
  split
  case h_5 =>
    have h80 := hv (by omega)
    simp only [h80, ne_eq, not_true_eq_false, ite_false, reduceCtorEq]
    apply noStartEv_sendUpdate
    apply noStartEv_of_events
    simp [ite_events, refreshSoundDuty]
  case h_9 =>
    have h80 := hv (by omega)
    simp only [h80, ne_eq, not_true_eq_false, ite_false, reduceCtorEq]
    apply noStartEv_sendUpdate
    apply noStartEv_of_events
    simp [ite_events, refreshSoundDuty]
  case h_14 =>
    have h80 := hv (by omega)
    simp only [h80, ne_eq, not_true_eq_false, ite_false, reduceCtorEq, false_and]
    apply noStartEv_sendUpdate
    apply noStartEv_of_events
    simp [ite_events, refreshSoundDuty]
  case h_18 =>
    have h80 := hv (by omega)
    simp only [h80, ne_eq, not_true_eq_false, ite_false, reduceCtorEq]
    apply noStartEv_of_events
    simp [ite_events, refreshSoundDuty]
  all_goals
    first
    | (apply noStartEv_of_events
       simp [ite_events, refreshSoundDuty, updateSoundSample]
       done)
    | (apply noStartEv_sendUpdate
       apply noStartEv_of_events
       simp [ite_events, refreshSoundDuty]
       done)
    | (apply noStartEv_rsv
       apply noStartEv_of_events
       simp [ite_events, refreshSoundDuty]
       done)
    | (split
       · apply noStartEv_sendUpdate
         apply noStartEv_of_events
         simp [ite_events, refreshSoundDuty]
       · apply noStartEv_of_events
         simp [ite_events, refreshSoundDuty]
       )
    | (split
       · apply noStartEv_sendGlobal
         apply noStartEv_of_events
         simp [ite_events, refreshSoundDuty]
       · apply noStartEv_of_events
         simp [ite_events, refreshSoundDuty]
       )
    | (apply noStartEv_sendGlobal
       apply noStartEv_sendUpdate
       apply noStartEv_of_events
       simp [ite_events, refreshSoundDuty]
       done)
/-- The bulk fold of refresh, over an arbitrary address list: the shared
on-bitmask stays at zero, no Start message is handed over, and the mute
flag is untouched. -/
theorem bulkFold_inv (ctx : Ctx) (l : List Nat) : ∀ (s : St), s.shared.chanOn = 0 →
    ((l.foldl (fun s i =>
        if i = 0x14 ∨ i = 0x19 ∨ i = 0x1E ∨ i = 0x23 then
          handleSoundRegister ctx i (ctx.io i &&& 0x7F) s
        else
          handleSoundRegister ctx i (ctx.io i) s) s).shared.chanOn = 0 ∧
      noStartEv s (l.foldl (fun s i =>
        if i = 0x14 ∨ i = 0x19 ∨ i = 0x1E ∨ i = 0x23 then
          handleSoundRegister ctx i (ctx.io i &&& 0x7F) s
        else
          handleSoundRegister ctx i (ctx.io i) s) s) ∧
      (l.foldl (fun s i =>
        if i = 0x14 ∨ i = 0x19 ∨ i = 0x1E ∨ i = 0x23 then
          handleSoundRegister ctx i (ctx.io i &&& 0x7F) s
        else
          handleSoundRegister ctx i (ctx.io i) s) s).eng.muted = s.eng.muted) := by
  induction l with
  | nil =>
    intro s h0
    exact ⟨h0, noStartEv_refl s, rfl⟩
  | cons i l ih =>
    intro s h0
    rw [List.foldl_cons]
    by_cases hi : i = 0x14 ∨ i = 0x19 ∨ i = 0x1E ∨ i = 0x23
    · rw [if_pos hi]
      have hstep0 : (handleSoundRegister ctx i (ctx.io i &&& 0x7F) s).shared.chanOn = 0 :=
        hsr_bulk_shared_chanOn ctx i (ctx.io i &&& 0x7F) s (fun _ => and7F_and80 _) h0
      obtain ⟨hA, hB, hC⟩ := ih (handleSoundRegister ctx i (ctx.io i &&& 0x7F) s) hstep0
      refine ⟨hA, noStartEv_trans ?_ hB, by rw [hC, hsr_muted]⟩
      exact hsr_bulk_noStart ctx i (ctx.io i &&& 0x7F) s (fun _ => and7F_and80 _)
    · rw [if_neg hi]
      have hstep0 : (handleSoundRegister ctx i (ctx.io i) s).shared.chanOn = 0 :=
        hsr_bulk_shared_chanOn ctx i (ctx.io i) s (fun h => absurd h hi) h0
      obtain ⟨hA, hB, hC⟩ := ih (handleSoundRegister ctx i (ctx.io i) s) hstep0
      refine ⟨hA, noStartEv_trans ?_ hB, by rw [hC, hsr_muted]⟩
      exact hsr_bulk_noStart ctx i (ctx.io i) s (fun h => absurd h hi)

/-- The bulk resync pass keeps the shared on-bitmask at zero, hands no
Start message to the protocol, and does not change the mute flag. -/
theorem refreshBulk_inv (ctx : Ctx) (s : St) (h0 : s.shared.chanOn = 0) :
    (refreshBulk ctx s).shared.chanOn = 0 ∧ noStartEv s (refreshBulk ctx s) ∧
      (refreshBulk ctx s).eng.muted = s.eng.muted := by
  unfold refreshBulk
  exact bulkFold_inv ctx refreshRange s h0
/-- A bitmask test against a power of two is the corresponding testBit. -/
theorem flag_bit (x k : Nat) : x &&& 2 ^ k ≠ 0 ↔ x.testBit k = true := by
  rw [Nat.and_two_pow]
  cases hb : x.testBit k
  · simp
  · simp [(Nat.two_pow_pos k).ne']

/-- Setting bit 7 by or-ing makes the trigger-bit test succeed. -/
theorem or80_and80 (x : Nat) : (x ||| 0x80) &&& 0x80 ≠ 0 := by
  intro h
  have h7 : ((x ||| 0x80) &&& 0x80).testBit 7 = true := by
    simp [Nat.testBit_and, Nat.testBit_or, show Nat.testBit 0x80 7 = true from by decide]
  rw [h] at h7
  simp [Nat.zero_testBit] at h7

/-- A sendStart after a non-sending volume refresh: the appended events
contain the Start for the intended channel and Starts for no other. -/
theorem sendStart_only_after_rsv (ctx : Ctx) (i j : Nat) (s₀ X : St)
    (hm : X.eng.muted = false) (hev : X.events = s₀.events) :
    ∃ t, (sendStartMessage ctx i (refreshSoundVolume ctx j false X)).events
        = s₀.events ++ t ∧ Ev.sent (GBCmd.start i) ∈ t ∧
        ∀ k, Ev.sent (GBCmd.start k) ∈ t → k = i := by
  have hm' : (refreshSoundVolume ctx j false X).eng.muted = false := by
    rw [rsv_eng]; exact hm
  obtain ⟨t, ht, hP⟩ := sendStart_events ctx i _ hm'
  refine ⟨Ev.sent (GBCmd.start i) :: t, ?_, by simp, ?_⟩
  · rw [ht, rsv_false_events, hev]
  · intro k hk
    rcases List.mem_cons.mp hk with h | h
    · injection h with h2
      injection h2
    · rcases hP _ h with h' | h' | h' <;> simp at h'

set_option maxHeartbeats 1600000 in
/-- A trigger write to 0x14 with the mute redirect off: the shared
on-bitmask gains the channel-1 bit and the appended events contain a
Start for channel 0 only. -/
theorem trig14_inv (ctx : Ctx) (v : Nat) (s : St)
    (h80 : v &&& 0x80 ≠ 0) (hm : s.eng.muted = false) :
    (handleSoundRegister ctx 0x14 v s).shared.chanOn = s.shared.chanOn ||| CHAN_1 ∧
    ∃ t, (handleSoundRegister ctx 0x14 v s).events = s.events ++ t ∧
      Ev.sent (GBCmd.start 0) ∈ t ∧ ∀ k, Ev.sent (GBCmd.start k) ∈ t → k = 0 := by
  constructor
  · simp only [handleSoundRegister]
    rw [if_pos h80]
    simp [ite_shared_chanOn, sendStart_shared_chanOn, rsv_shared_chanOn,
      rsf_shared_chanOn, setSEC_eng_muted, wrSh, ite_muted, hm]
  · simp only [handleSoundRegister]
    rw [if_pos h80]
    apply sendStart_only_after_rsv
    · simp [ite_muted, setSEC_eng_muted, refreshSoundFreq, wrSh, hm]
    · simp [ite_events, refreshSoundFreq, wrSh]

set_option maxHeartbeats 1600000 in
/-- A trigger write to 0x19 with the mute redirect off: the shared
on-bitmask gains the channel-2 bit and the appended events contain a
Start for channel 1 only. -/
theorem trig19_inv (ctx : Ctx) (v : Nat) (s : St)
    (h80 : v &&& 0x80 ≠ 0) (hm : s.eng.muted = false) :
    (handleSoundRegister ctx 0x19 v s).shared.chanOn = s.shared.chanOn ||| CHAN_2 ∧
    ∃ t, (handleSoundRegister ctx 0x19 v s).events = s.events ++ t ∧
      Ev.sent (GBCmd.start 1) ∈ t ∧ ∀ k, Ev.sent (GBCmd.start k) ∈ t → k = 1 := by
  constructor
  · simp only [handleSoundRegister]
    rw [if_pos h80]
    simp [ite_shared_chanOn, sendStart_shared_chanOn, rsv_shared_chanOn,
      rsf_shared_chanOn, setSEC_eng_muted, wrSh, ite_muted, hm]
  · simp only [handleSoundRegister]
    rw [if_pos h80]
    apply sendStart_only_after_rsv
    · simp [ite_muted, setSEC_eng_muted, refreshSoundFreq, wrSh, hm]
    · simp [ite_events, refreshSoundFreq, wrSh]

set_option maxHeartbeats 1600000 in
/-- A trigger write to 0x23 with the mute redirect off: the shared
on-bitmask gains the channel-4 bit and the appended events contain a
Start for channel 3 only. -/
theorem trig23_inv (ctx : Ctx) (v : Nat) (s : St)
    (h80 : v &&& 0x80 ≠ 0) (hm : s.eng.muted = false) :
    (handleSoundRegister ctx 0x23 v s).shared.chanOn = s.shared.chanOn ||| CHAN_4 ∧
    ∃ t, (handleSoundRegister ctx 0x23 v s).events = s.events ++ t ∧
      Ev.sent (GBCmd.start 3) ∈ t ∧ ∀ k, Ev.sent (GBCmd.start k) ∈ t → k = 3 := by
  constructor
  · simp only [handleSoundRegister]
    rw [if_pos h80]
    simp [ite_shared_chanOn, sendStart_shared_chanOn, rsv_shared_chanOn,
      rsf_shared_chanOn, setSEC_eng_muted, wrSh, ite_muted, hm]
  · simp only [handleSoundRegister]
    rw [if_pos h80]
    apply sendStart_only_after_rsv
    · simp [ite_muted, setSEC_eng_muted, wrSh, hm]
    · simp [ite_events, wrSh]

set_option maxHeartbeats 1600000 in
/-- A trigger write to 0x1E with the wave DAC enabled and the mute
redirect off: the shared on-bitmask gains the channel-3 bit and the
appended events contain a Start for channel 2 only. -/
theorem trig1E_dac_inv (ctx : Ctx) (v : Nat) (s : St)
    (h80 : v &&& 0x80 ≠ 0) (hdac : ctx.io 0x1A &&& 0x80 ≠ 0) (hm : s.eng.muted = false) :
    (handleSoundRegister ctx 0x1E v s).shared.chanOn = s.shared.chanOn ||| CHAN_3 ∧
    ∃ t, (handleSoundRegister ctx 0x1E v s).events = s.events ++ t ∧
      Ev.sent (GBCmd.start 2) ∈ t ∧ ∀ k, Ev.sent (GBCmd.start k) ∈ t → k = 2 := by
  constructor
  · simp only [handleSoundRegister]
    rw [if_pos ⟨h80, hdac⟩]
    simp [ite_shared_chanOn, sendStart_shared_chanOn, rsv_shared_chanOn,
      rsf_shared_chanOn, setSEC_eng_muted, wrSh, ite_muted, hm]
  · simp only [handleSoundRegister]
    rw [if_pos ⟨h80, hdac⟩]
    apply sendStart_only_after_rsv
    · simp [ite_muted, setSEC_eng_muted, refreshSoundFreq, wrSh, hm]
    · simp [ite_events, refreshSoundFreq, wrSh]

set_option maxHeartbeats 1600000 in
/-- A trigger write to 0x1E with the wave DAC disabled: the shared
on-bitmask is unchanged and no Start message is handed over. -/
theorem trig1E_off_inv (ctx : Ctx) (v : Nat) (s : St)
    (hdac0 : ctx.io 0x1A &&& 0x80 = 0) :
    (handleSoundRegister ctx 0x1E v s).shared.chanOn = s.shared.chanOn ∧
    noStartEv s (handleSoundRegister ctx 0x1E v s) := by
  constructor
  · simp only [handleSoundRegister]
    rw [if_neg (by simp [hdac0])]
    simp [sendUpdate_shared_chanOn, rsf_shared_chanOn]
  · simp only [handleSoundRegister]
    rw [if_neg (by simp [hdac0])]
    apply noStartEv_sendUpdate
    apply noStartEv_of_events
    simp

/-- Invariant carried through the retrigger pass of refresh, relative to
the state s₀ it started from: the mute redirect is off, every set bit of
the shared on-bitmask is flagged in io register 0x26, and the events
appended since s₀ contain Start messages only for flagged channels. -/
def RInv (ctx : Ctx) (s₀ X : St) : Prop :=
  X.eng.muted = false ∧
  (∀ b, X.shared.chanOn.testBit b = true → (ctx.io 0x26).testBit b = true) ∧
  (∃ t, X.events = s₀.events ++ t ∧
    ∀ k, Ev.sent (GBCmd.start k) ∈ t → (ctx.io 0x26).testBit k = true)

/-- A set bit in a power of two names its exponent. -/
theorem pow2_testBit_eq (k b : Nat) (h : (2 ^ k : Nat).testBit b = true) : b = k := by
  by_contra hne
  rw [Nat.testBit_two_pow_of_ne (fun hh => hne hh.symm)] at h
  simp at h

theorem retStep0 (ctx : Ctx) (s₀ X : St) (h : RInv ctx s₀ X) :
    RInv ctx s₀ (if ctx.io 0x26 &&& 1 ≠ 0 then
        handleSoundRegister ctx 0x14 (ctx.io 0x14 ||| 0x80) X else X) ∧
    evApp X (if ctx.io 0x26 &&& 1 ≠ 0 then
        handleSoundRegister ctx 0x14 (ctx.io 0x14 ||| 0x80) X else X) ∧
    (ctx.io 0x26 &&& 1 ≠ 0 →
      Ev.sent (GBCmd.start 0) ∈ (if ctx.io 0x26 &&& 1 ≠ 0 then
        handleSoundRegister ctx 0x14 (ctx.io 0x14 ||| 0x80) X else X).events) := by
  by_cases hf : ctx.io 0x26 &&& 1 ≠ 0
  · rw [if_pos hf]
    obtain ⟨hcOn, t, ht, hmem, honly⟩ :=
      trig14_inv ctx (ctx.io 0x14 ||| 0x80) X (or80_and80 _) h.1
    obtain ⟨t0, ht0, hP0⟩ := h.2.2
    refine ⟨⟨?_, ?_, ?_⟩, ⟨t, ht⟩, fun _ => ?_⟩
    · rw [hsr_muted]; exact h.1
    · intro b hb
      rw [hcOn, Nat.testBit_or] at hb
      rw [Bool.or_eq_true] at hb
      rcases hb with hb | hb
      · exact h.2.1 b hb
      · rw [pow2_testBit_eq 0 b hb]
        exact (flag_bit _ 0).mp hf
    · refine ⟨t0 ++ t, by rw [ht, ht0, List.append_assoc], ?_⟩
      intro k hk
      rcases List.mem_append.mp hk with hk | hk
      · exact hP0 k hk
      · rw [honly k hk]
        exact (flag_bit _ 0).mp hf
    · rw [ht]
      exact List.mem_append_right _ hmem
  · rw [if_neg hf]
    exact ⟨h, evApp_refl X, fun hc => absurd hc hf⟩

theorem retStep1 (ctx : Ctx) (s₀ X : St) (h : RInv ctx s₀ X) :
    RInv ctx s₀ (if ctx.io 0x26 &&& 2 ≠ 0 then
        handleSoundRegister ctx 0x19 (ctx.io 0x19 ||| 0x80) X else X) ∧
    evApp X (if ctx.io 0x26 &&& 2 ≠ 0 then
        handleSoundRegister ctx 0x19 (ctx.io 0x19 ||| 0x80) X else X) ∧
    (ctx.io 0x26 &&& 2 ≠ 0 →
      Ev.sent (GBCmd.start 1) ∈ (if ctx.io 0x26 &&& 2 ≠ 0 then
        handleSoundRegister ctx 0x19 (ctx.io 0x19 ||| 0x80) X else X).events) := by
  by_cases hf : ctx.io 0x26 &&& 2 ≠ 0
  · rw [if_pos hf]
    obtain ⟨hcOn, t, ht, hmem, honly⟩ :=
      trig19_inv ctx (ctx.io 0x19 ||| 0x80) X (or80_and80 _) h.1
    obtain ⟨t0, ht0, hP0⟩ := h.2.2
    refine ⟨⟨?_, ?_, ?_⟩, ⟨t, ht⟩, fun _ => ?_⟩
    · rw [hsr_muted]; exact h.1
    · intro b hb
      rw [hcOn, Nat.testBit_or] at hb
      rw [Bool.or_eq_true] at hb
      rcases hb with hb | hb
      · exact h.2.1 b hb
      · rw [pow2_testBit_eq 1 b hb]
        exact (flag_bit _ 1).mp hf
    · refine ⟨t0 ++ t, by rw [ht, ht0, List.append_assoc], ?_⟩
      intro k hk
      rcases List.mem_append.mp hk with hk | hk
      · exact hP0 k hk
      · rw [honly k hk]
        exact (flag_bit _ 1).mp hf
    · rw [ht]
      exact List.mem_append_right _ hmem
  · rw [if_neg hf]
    exact ⟨h, evApp_refl X, fun hc => absurd hc hf⟩

theorem retStep2 (ctx : Ctx) (s₀ X : St) (h : RInv ctx s₀ X) :
    RInv ctx s₀ (if ctx.io 0x26 &&& 4 ≠ 0 then
        handleSoundRegister ctx 0x1E (ctx.io 0x1E ||| 0x80) X else X) ∧
    evApp X (if ctx.io 0x26 &&& 4 ≠ 0 then
        handleSoundRegister ctx 0x1E (ctx.io 0x1E ||| 0x80) X else X) ∧
    (ctx.io 0x26 &&& 4 ≠ 0 → ctx.io 0x1A &&& 0x80 ≠ 0 →
      Ev.sent (GBCmd.start 2) ∈ (if ctx.io 0x26 &&& 4 ≠ 0 then
        handleSoundRegister ctx 0x1E (ctx.io 0x1E ||| 0x80) X else X).events) := by
  by_cases hf : ctx.io 0x26 &&& 4 ≠ 0
  · rw [if_pos hf]
    by_cases hdac : ctx.io 0x1A &&& 0x80 ≠ 0
    · obtain ⟨hcOn, t, ht, hmem, honly⟩ :=
        trig1E_dac_inv ctx (ctx.io 0x1E ||| 0x80) X (or80_and80 _) hdac h.1
      obtain ⟨t0, ht0, hP0⟩ := h.2.2
      refine ⟨⟨?_, ?_, ?_⟩, ⟨t, ht⟩, fun _ _ => ?_⟩
      · rw [hsr_muted]; exact h.1
      · intro b hb
        rw [hcOn, Nat.testBit_or] at hb
        rw [Bool.or_eq_true] at hb
        rcases hb with hb | hb
        · exact h.2.1 b hb
        · rw [pow2_testBit_eq 2 b hb]
          exact (flag_bit _ 2).mp hf
      · refine ⟨t0 ++ t, by rw [ht, ht0, List.append_assoc], ?_⟩
        intro k hk
        rcases List.mem_append.mp hk with hk | hk
        · exact hP0 k hk
        · rw [honly k hk]
          exact (flag_bit _ 2).mp hf
      · rw [ht]
        exact List.mem_append_right _ hmem
    · obtain ⟨hcOn, t1, ht1, hn1⟩ :=
        trig1E_off_inv ctx (ctx.io 0x1E ||| 0x80) X (not_ne_iff.mp hdac)
      obtain ⟨t0, ht0, hP0⟩ := h.2.2
      refine ⟨⟨?_, ?_, ?_⟩, ⟨t1, ht1⟩, fun _ hd => absurd hd hdac⟩
      · rw [hsr_muted]; exact h.1
      · intro b hb
        rw [hcOn] at hb
        exact h.2.1 b hb
      · refine ⟨t0 ++ t1, by rw [ht1, ht0, List.append_assoc], ?_⟩
        intro k hk
        rcases List.mem_append.mp hk with hk | hk
        · exact hP0 k hk
        · exact absurd hk (hn1 k)
  · rw [if_neg hf]
    exact ⟨h, evApp_refl X, fun hc _ => absurd hc hf⟩

theorem retStep3 (ctx : Ctx) (s₀ X : St) (h : RInv ctx s₀ X) :
    RInv ctx s₀ (if ctx.io 0x26 &&& 8 ≠ 0 then
        handleSoundRegister ctx 0x23 (ctx.io 0x23 ||| 0x80) X else X) ∧
    evApp X (if ctx.io 0x26 &&& 8 ≠ 0 then
        handleSoundRegister ctx 0x23 (ctx.io 0x23 ||| 0x80) X else X) ∧
    (ctx.io 0x26 &&& 8 ≠ 0 →
      Ev.sent (GBCmd.start 3) ∈ (if ctx.io 0x26 &&& 8 ≠ 0 then
        handleSoundRegister ctx 0x23 (ctx.io 0x23 ||| 0x80) X else X).events) := by
  by_cases hf : ctx.io 0x26 &&& 8 ≠ 0
  · rw [if_pos hf]
    obtain ⟨hcOn, t, ht, hmem, honly⟩ :=
      trig23_inv ctx (ctx.io 0x23 ||| 0x80) X (or80_and80 _) h.1
    obtain ⟨t0, ht0, hP0⟩ := h.2.2
    refine ⟨⟨?_, ?_, ?_⟩, ⟨t, ht⟩, fun _ => ?_⟩
    · rw [hsr_muted]; exact h.1
    · intro b hb
      rw [hcOn, Nat.testBit_or] at hb
      rw [Bool.or_eq_true] at hb
      rcases hb with hb | hb
      · exact h.2.1 b hb
      · rw [pow2_testBit_eq 3 b hb]
        exact (flag_bit _ 3).mp hf
    · refine ⟨t0 ++ t, by rw [ht, ht0, List.append_assoc], ?_⟩
      intro k hk
      rcases List.mem_append.mp hk with hk | hk
      · exact hP0 k hk
      · rw [honly k hk]
        exact (flag_bit _ 3).mp hf
    · rw [ht]
      exact List.mem_append_right _ hmem
  · rw [if_neg hf]
    exact ⟨h, evApp_refl X, fun hc => absurd hc hf⟩

/-- The retrigger pass, started from a state with the shared on-bitmask
cleared and the mute redirect off: afterwards every set on-bit is
flagged in io 0x26, the appended events contain Starts only for flagged
channels, and each flagged channel (the wave channel only with its DAC
enabled) has a Start in the event log. -/
theorem retrigger_inv (ctx : Ctx) (s : St) (hm : s.eng.muted = false)
    (h0 : s.shared.chanOn = 0) :
    RInv ctx s (refreshRetrigger ctx s) ∧
    (∀ j, j < 4 → (ctx.io 0x26).testBit j = true → (j = 2 → ctx.io 0x1A &&& 0x80 ≠ 0) →
      Ev.sent (GBCmd.start j) ∈ (refreshRetrigger ctx s).events) := by
  have hR : RInv ctx s s := by
    refine ⟨hm, ?_, ⟨[], by simp, by simp⟩⟩
    intro b hb
    rw [h0] at hb
    simp [Nat.zero_testBit] at hb
  have e1 := retStep0 ctx s s hR
  have e2 := retStep1 ctx s _ e1.1
  have e3 := retStep2 ctx s _ e2.1
  have e4 := retStep3 ctx s _ e3.1
  constructor
  · exact e4.1
  · intro j hj hfl hdac
    interval_cases j
    · exact evApp_mem e4.2.1 _ (evApp_mem e3.2.1 _ (evApp_mem e2.2.1 _
        (e1.2.2 ((flag_bit _ 0).mpr hfl))))
    · exact evApp_mem e4.2.1 _ (evApp_mem e3.2.1 _ (e2.2.2 ((flag_bit _ 1).mpr hfl)))
    · exact evApp_mem e4.2.1 _ (e3.2.2 ((flag_bit _ 2).mpr hfl) (hdac rfl))
    · exact e4.2.2 ((flag_bit _ 3).mpr hfl)

set_option maxHeartbeats 1600000 in
/-- C2: the master-enable resync path.  With the master disable flag
clear, refresh re-applies registers 0x10-0x3F with the trigger bit
masked off for the four trigger registers (the bulk pass keeps the
on-bitmask at zero and hands over no Start message), then re-issues a
trigger write per channel flagged in io 0x26.  Afterwards every set bit
of the active on-bitmask is a flagged channel, every Start handed to the
protocol during the whole refresh is for a flagged channel -- so
channels that were off stay off -- and every flagged channel (the wave
channel only with its DAC enabled) receives its Start. -/
theorem refresh_resync_spec (ctx : Ctx) (s : St) :
    (∀ b, (rdSh (refresh false ctx s)).chanOn.testBit b = true →
        (ctx.io 0x26).testBit b = true) ∧
    (∃ t, (refresh false ctx s).events = s.events ++ t ∧
        ∀ j, Ev.sent (GBCmd.start j) ∈ t → (ctx.io 0x26).testBit j = true) ∧
    (∀ j, j < 4 → (ctx.io 0x26).testBit j = true → (j = 2 → ctx.io 0x1A &&& 0x80 ≠ 0) →
        Ev.sent (GBCmd.start j) ∈ (refresh false ctx s).events) := by
  have hm1 : (wrSh (unmute s) fun sh => { sh with chanOn := 0 }).eng.muted = false := by
    simp [wrSh, unmute]
  have h0s : (wrSh (unmute s) fun sh => { sh with chanOn := 0 }).shared.chanOn = 0 := by
    simp [wrSh, unmute]
  have hev1 : (wrSh (unmute s) fun sh => { sh with chanOn := 0 }).events = s.events := by
    simp [unmute]
  have hv26 : ¬((0x26 : Nat) = 0x14 ∨ (0x26 : Nat) = 0x19 ∨
      (0x26 : Nat) = 0x1E ∨ (0x26 : Nat) = 0x23) := by decide
  have hc2 := hsr_bulk_shared_chanOn ctx 0x26 (ctx.io 0x26) _ (fun h => absurd h hv26) h0s
  have hn2 := hsr_bulk_noStart ctx 0x26 (ctx.io 0x26)
    (wrSh (unmute s) fun sh => { sh with chanOn := 0 }) (fun h => absurd h hv26)
  have hm2 : (handleSoundRegister ctx 0x26 (ctx.io 0x26)
      (wrSh (unmute s) fun sh => { sh with chanOn := 0 })).eng.muted = false := by
    rw [hsr_muted]; exact hm1
  obtain ⟨hc3, hn3, hmu3⟩ := refreshBulk_inv ctx _ hc2
  have hm3 : (refreshBulk ctx (handleSoundRegister ctx 0x26 (ctx.io 0x26)
      (wrSh (unmute s) fun sh => { sh with chanOn := 0 }))).eng.muted = false := by
    rw [hmu3]; exact hm2
  obtain ⟨hR4, hmem4⟩ := retrigger_inv ctx _ hm3 hc3
  obtain ⟨hmu4, hbit4, t4, ht4, hP4⟩ := hR4
  obtain ⟨t2, ht2, hn2P⟩ := hn2
  obtain ⟨t3, ht3, hn3P⟩ := hn3
  refine ⟨?_, ?_, ?_⟩
  · intro b hb
    refine hbit4 b ?_
    have hrd := rdSh_eq_shared _ hmu4
    rw [← hrd]
    exact hb
  · refine ⟨t2 ++ (t3 ++ t4), ?_, ?_⟩
    · show (refreshRetrigger ctx (refreshBulk ctx (handleSoundRegister ctx 0x26 (ctx.io 0x26)
        (wrSh (unmute s) fun sh => { sh with chanOn := 0 })))).events
          = s.events ++ (t2 ++ (t3 ++ t4))
      rw [ht4, ht3, ht2, hev1]
      simp [List.append_assoc]
    · intro j hj
      rcases List.mem_append.mp hj with hj | hj
      · exact absurd hj (hn2P j)
      · rcases List.mem_append.mp hj with hj | hj
        · exact absurd hj (hn3P j)
        · exact hP4 j hj
  · intro j hj hfl hdac
    exact hmem4 j hj hfl hdac

/-- A context whose io file flags channel 0 in the status register 0x26
and leaves every other register zero. -/
def ctxR : Ctx := { ctx0 with io := fun n => if n = 0x26 then 0x81 else 0 }

/-- C2 witness: with channel 0 flagged in io 0x26, the refresh resync
hands a Start for channel 0 to the protocol. -/
theorem refresh_resync_spec_witness :
    Ev.sent (GBCmd.start 0) ∈ (refresh false ctxR st0).events :=
  (refresh_resync_spec ctxR st0).2.2 0 (by decide) (by decide)
    (fun h => absurd h (by decide))

end GameYob
